import Mathlib

/-!
# Port-mapping logic of the `nat` package (nknorg/go-nat)

A shallow embedding of `nat.go`, `natpmp.go` and `upnp.go`.

* Go `int` values are `Int`; the conversions `uint16(x)` and `uint32(x)` are
  reduction modulo `2^16` and `2^32`.
* A `map[int]int` is a partial function `Int → Option Int`.
* The collaborators the package talks to (the random source, the NAT-PMP and
  UPnP wire clients, the interface enumerator and the address resolver) are
  supplied per call as a `World`: the values they hand back, in the order they
  are asked for.  Each operation returns what it returned to its caller, the
  cache it leaves behind, and the list of wire-client calls it issued.
* A Go panic is an outcome of its own (`Outcome.panicked`), carrying the cache
  as the panic left it.
* `net.IP`, `net.IPNet` and `(*IPNet).Contains` follow the Go standard library.

`DiscoverGateway` (a `select` over goroutine channels and a timer) is not
embedded.
-/

namespace GoNat

/-! ## Errors (`nat.go`) -/

/-- The error values of the package (`errors.New` variables of `nat.go`), plus
`foreign`, an error value produced by a collaborator and passed on unchanged. -/
inductive Error where
  | errNoAvailableExternalPort
  | errExternalPortInUse
  | errNoExternalAddress
  | errNoInternalAddress
  | errNoNATFound
  | foreign (code : Nat)
  deriving DecidableEq, Repr

/-- A Go result `(a, b, err)`: `err == nil` is success. -/
def goReturn (a b : Int) (err : Option Error) : Except Error (Int × Int) :=
  match err with
  | none => .ok (a, b)
  | some e => .error e

/-! ## `randomPort` (`nat.go`) -/

/-- The constant `math.MaxUint16`. -/
def maxUint16 : Nat := 65535

/-- Go `rand.Intn(n)`: a value in `[0, n)`, here obtained from the raw value
`r` handed out by the random source. -/
def intn (n r : Nat) : Nat := r % n

/-- The function `randomPort`: `rand.Intn(math.MaxUint16-10000) + 10000`. -/
def randomPort (r : Nat) : Int := (intn (maxUint16 - 10000) r : Nat) + 10000

/-! ## Addresses (Go `net`) -/

/-- Go `net.IP`: a byte slice; `nil` is the empty list. -/
abbrev IP := List Nat

/-- Go `net.IPNet`. -/
structure IPNet where
  ip : IP
  mask : List Nat
  deriving DecidableEq, Repr

/-- The dynamic types of a `net.Addr` that `iface.Addrs()` hands back. -/
inductive Addr where
  | ipNet (x : IPNet)
  | other
  deriving DecidableEq, Repr

/-- Go `IP.To4`: the 4-byte form of an IPv4 address, `nil` otherwise. -/
def IP.To4 (ip : IP) : IP :=
  if ip.length = 4 then ip
  else if ip.length = 16 ∧ (ip.take 10).all (fun b => b == 0) ∧
      ip.getD 10 0 = 255 ∧ ip.getD 11 0 = 255 then ip.drop 12
  else []

/-- Go `networkNumberAndMask`. -/
def networkNumberAndMask (n : IPNet) : IP × List Nat :=
  let ip4 := IP.To4 n.ip
  let ip := if ip4 = [] then n.ip else ip4
  if ip4 = [] ∧ ip.length ≠ 16 then ([], [])
  else
    let m := n.mask
    if m.length = 4 then
      if ip.length ≠ 4 then ([], []) else (ip, m)
    else if m.length = 16 then
      if ip.length = 4 then (ip, m.drop 12) else (ip, m)
    else ([], [])

/-- Go `(*IPNet).Contains`. -/
def IPNet.Contains (n : IPNet) (ip : IP) : Bool :=
  let nm := networkNumberAndMask n
  let x := IP.To4 ip
  let ip := if x ≠ [] then x else ip
  if ip.length ≠ nm.1.length then false
  else (List.range ip.length).all
    (fun i => (nm.1.getD i 0 &&& nm.2.getD i 0) == (ip.getD i 0 &&& nm.2.getD i 0))

/-! ## The mapping cache -/

/-- The field `ports map[int]int`. -/
abbrev Ports := Int → Option Int

/-- The map built by `make(map[int]int)`. -/
def Ports.empty : Ports := fun _ => none

/-- The assignment `m[k] = v`. -/
def Ports.set (m : Ports) (k v : Int) : Ports := fun x => if x = k then some v else m x

/-- The statement `delete(m, k)`. -/
def Ports.delete (m : Ports) (k : Int) : Ports := fun x => if x = k then none else m x

/-! ## The collaborators -/

/-- What the collaborators answer during one call.
* `rand k`: the raw value behind the `k`-th `rand.Intn` of the call;
* `reply k`: the error of the `k`-th wire-client call (`none` is `nil`);
* `interfaces`: `net.Interfaces()`, each interface with its `Addrs()`;
* `resolveUDPAddr host`: the IP of `net.ResolveUDPAddr("udp4", host)`. -/
structure World where
  rand : Nat → Nat
  reply : Nat → Option Error
  interfaces : Except Error (List (Except Error (List Addr)))
  resolveUDPAddr : String → Except Error IP

/-- Go `time.Second`, in nanoseconds. -/
def second : Int := 1000000000

/-- The conversion `uint16(x)`. -/
def toUint16 (x : Int) : Int := x % 65536

/-- The conversion `uint32(x)`. -/
def toUint32 (x : Int) : Int := x % 4294967296

/-- What is returned to the caller together with the effects of the call: the
cache afterwards, the wire-client calls issued (in order) and the number of
random values consumed. -/
structure Effect (ρ Call : Type) where
  ret : ρ
  ports : Ports
  calls : List Call
  draws : Nat

/-! ## The local-subnet scan (`GetInternalAddress`) -/

/-- The inner loop `for _, addr := range addrs`: the `IP` of the first
`*net.IPNet` containing `gw`. -/
def scanAddrs (gw : IP) : List Addr → Option IP
  | [] => none
  | Addr.ipNet x :: rest => if x.Contains gw then some x.ip else scanAddrs gw rest
  | Addr.other :: rest => scanAddrs gw rest

/-- The outer loop `for _, iface := range ifaces`, ending in
`return nil, errNoInternalAddress`. -/
def scanIfaces (gw : IP) : List (Except Error (List Addr)) → Except Error IP
  | [] => .error Error.errNoInternalAddress
  | Except.error e :: _ => .error e
  | Except.ok addrs :: rest =>
    match scanAddrs gw addrs with
    | some ip => .ok ip
    | none => scanIfaces gw rest

/-- The scan that follows the device address in both `GetInternalAddress`. -/
def scanInterfaces (w : World) (gw : IP) : Except Error IP :=
  match w.interfaces with
  | .error e => .error e
  | .ok ifaces => scanIfaces gw ifaces

/-! ## External-port selection (the same text in both adapters) -/

/-- The loop `for i := 0; i < 100; i++ (externalPort = randomPort(); _, found =
ports[externalPort]; if !found (break))` with `fuel` iterations left and `k`
random values consumed; yields `(externalPort, found, draws)`. -/
def pickLoop (ports : Ports) (rand : Nat → Nat) : Nat → Nat → Int → Bool → Int × Bool × Nat
  | 0, k, externalPort, found => (externalPort, found, k)
  | fuel + 1, k, _, _ =>
    let externalPort := randomPort (rand k)
    let found := (ports externalPort).isSome
    if !found then (externalPort, found, k + 1)
    else pickLoop ports rand fuel (k + 1) externalPort found

/-- The block `if externalPort == 0 (found := true; for ...)`: the external port,
the final `found` (`false` when the block is skipped) and the draws consumed. -/
def pickExternalPort (ports : Ports) (rand : Nat → Nat) (externalPort : Int) : Int × Bool × Nat :=
  if externalPort = 0 then pickLoop ports rand 100 0 externalPort true
  else (externalPort, false, 0)

/-! ## The NAT-PMP adapter (`natpmp.go`) -/

/-- The struct `natpmpNAT`; the client `c` is answered by the `World`. -/
structure natpmpNAT where
  gateway : IP
  ports : Ports

/-- One call `c.AddPortMapping(protocol, internalPort, externalPort, lifetime)`
of the NAT-PMP client. -/
structure PmpCall where
  protocol : String
  internalPort : Int
  externalPort : Int
  lifetime : Int
  deriving DecidableEq, Repr

/-- The method `(*natpmpNAT).GetDeviceAddress`. -/
def natpmpNAT.GetDeviceAddress (n : natpmpNAT) : Except Error IP := .ok n.gateway

/-- The method `(*natpmpNAT).GetInternalAddress`. -/
def natpmpNAT.GetInternalAddress (n : natpmpNAT) (w : World) : Except Error IP :=
  scanInterfaces w n.gateway

/-- The loop `for i := 0; i < numTries; i++` of `(*natpmpNAT).AddPortMapping`
followed by `return 0, 0, err`; `fuel` iterations left, `calls` issued so far,
`k` random values consumed, `err` the current value of the variable `err`. -/
def natpmpNAT.tryLoop (ports : Ports) (w : World) (protocol : String)
    (externalPort internalPort timeoutInSeconds : Int) :
    Nat → List PmpCall → Nat → Option Error → Effect (Except Error (Int × Int)) PmpCall
  | 0, calls, k, err => ⟨goReturn 0 0 err, ports, calls, k⟩
  | fuel + 1, calls, k, _ =>
    let arg := if internalPort = 0 then randomPort (w.rand k) else internalPort
    let k' := if internalPort = 0 then k + 1 else k
    let err := w.reply calls.length
    let calls' := calls ++ [⟨protocol, arg, externalPort, timeoutInSeconds⟩]
    if err = none then
      ⟨.ok (externalPort, internalPort), ports.set externalPort internalPort, calls', k'⟩
    else natpmpNAT.tryLoop ports w protocol externalPort internalPort timeoutInSeconds
      fuel calls' k' err

/-- The method `(*natpmpNAT).AddPortMapping`; `timeout` is a `time.Duration`
(nanoseconds). -/
def natpmpNAT.AddPortMapping (n : natpmpNAT) (w : World) (protocol : String)
    (externalPort internalPort : Int) (_description : String) (timeout : Int) :
    Effect (Except Error (Int × Int)) PmpCall :=
  let timeoutInSeconds := Int.tdiv timeout second
  let pick := pickExternalPort n.ports w.rand externalPort
  if pick.2.1 then ⟨.error Error.errNoAvailableExternalPort, n.ports, [], pick.2.2⟩
  else
    let externalPort := pick.1
    match n.ports externalPort with
    | some existingInternalPort =>
      let internalPort := if internalPort = 0 then existingInternalPort else internalPort
      if internalPort ≠ existingInternalPort then
        ⟨.error Error.errExternalPortInUse, n.ports, [], pick.2.2⟩
      else
        let call : PmpCall := ⟨protocol, internalPort, externalPort, timeoutInSeconds⟩
        match w.reply 0 with
        | some e => ⟨.error e, n.ports, [call], pick.2.2⟩
        | none => ⟨.ok (externalPort, internalPort), n.ports, [call], pick.2.2⟩
    | none =>
      let numTries := if internalPort = 0 then 3 else 1
      natpmpNAT.tryLoop n.ports w protocol externalPort internalPort timeoutInSeconds
        numTries [] pick.2.2 none

/-- The method `(*natpmpNAT).DeletePortMapping`. -/
def natpmpNAT.DeletePortMapping (n : natpmpNAT) (_protocol : String) (externalPort : Int) :
    Effect (Option Error) PmpCall :=
  ⟨none, n.ports.delete externalPort, [], 0⟩

/-! ## The UPnP adapter (`upnp.go`) -/

/-- How a Go call ends: it returns, or it panics with a message. -/
inductive Outcome (α : Type) where
  | returned (a : α)
  | panicked (msg : String)
  deriving DecidableEq, Repr

/-- The function `mapProtocol`; `Except.error msg` stands for `panic(msg)`. -/
def mapProtocol (s : String) : Except String String :=
  if s = "udp" then .ok "UDP"
  else if s = "tcp" then .ok "TCP"
  else .error ("invalid protocol: " ++ s)

/-- The struct `upnpNAT`; the client `c` is answered by the `World`, and
`rootDevice` is the host string `rootDevice.URLBase.Host`. -/
structure upnpNAT where
  ports : Ports
  typ : String
  rootDevice : String

/-- One call of the interface `upnpNATClient`: `AddPortMapping(remoteHost,
externalPort, protocol, internalPort, internalClient, enabled, description,
leaseSeconds)` or `DeletePortMapping(remoteHost, externalPort, protocol)`;
`internalClient` is the address whose `String()` is passed. -/
inductive UpnpCall where
  | add (remoteHost : String) (externalPort : Int) (protocol : String) (internalPort : Int)
      (internalClient : IP) (enabled : Bool) (description : String) (leaseSeconds : Int)
  | delete (remoteHost : String) (externalPort : Int) (protocol : String)
  deriving DecidableEq, Repr

/-- The method `(*upnpNAT).GetDeviceAddress`. -/
def upnpNAT.GetDeviceAddress (u : upnpNAT) (w : World) : Except Error IP :=
  match w.resolveUDPAddr u.rootDevice with
  | .error e => .error e
  | .ok addr => .ok addr

/-- The method `(*upnpNAT).GetInternalAddress`. -/
def upnpNAT.GetInternalAddress (u : upnpNAT) (w : World) : Except Error IP :=
  match u.GetDeviceAddress w with
  | .error e => .error e
  | .ok devAddr => scanInterfaces w devAddr

/-- The loop `for i := 0; i < numTries; i++` of `(*upnpNAT).AddPortMapping`
followed by `return 0, 0, err`.  The arguments of the client call are evaluated
left to right, so `mapProtocol(protocol)` runs (and may panic) before
`randomPort()` is drawn. -/
def upnpNAT.tryLoop (ports : Ports) (w : World) (protocol : String)
    (externalPort internalPort : Int) (ip : IP) (description : String) (timeoutInSeconds : Int) :
    Nat → List UpnpCall → Nat → Option Error →
      Effect (Outcome (Except Error (Int × Int))) UpnpCall
  | 0, calls, k, err => ⟨.returned (goReturn 0 0 err), ports, calls, k⟩
  | fuel + 1, calls, k, _ =>
    match mapProtocol protocol with
    | .error msg => ⟨.panicked msg, ports, calls, k⟩
    | .ok proto =>
      let arg := if internalPort = 0 then toUint16 (randomPort (w.rand k))
        else toUint16 internalPort
      let k' := if internalPort = 0 then k + 1 else k
      let err := w.reply calls.length
      let calls' := calls ++ [UpnpCall.add "" (toUint16 externalPort) proto arg ip true
        description timeoutInSeconds]
      if err = none then
        ⟨.returned (.ok (externalPort, internalPort)), ports.set externalPort internalPort,
          calls', k'⟩
      else upnpNAT.tryLoop ports w protocol externalPort internalPort ip description
        timeoutInSeconds fuel calls' k' err

/-- The method `(*upnpNAT).AddPortMapping`; `timeout` is a `time.Duration`
(nanoseconds). -/
def upnpNAT.AddPortMapping (u : upnpNAT) (w : World) (protocol : String)
    (externalPort internalPort : Int) (description : String) (timeout : Int) :
    Effect (Outcome (Except Error (Int × Int))) UpnpCall :=
  match u.GetInternalAddress w with
  | .error err => ⟨.returned (.error err), u.ports, [], 0⟩
  | .ok ip =>
    let timeoutInSeconds := toUint32 (Int.tdiv timeout second)
    let pick := pickExternalPort u.ports w.rand externalPort
    if pick.2.1 then
      ⟨.returned (.error Error.errNoAvailableExternalPort), u.ports, [], pick.2.2⟩
    else
      let externalPort := pick.1
      match u.ports externalPort with
      | some existingInternalPort =>
        let internalPort := if internalPort = 0 then existingInternalPort else internalPort
        if internalPort ≠ existingInternalPort then
          ⟨.returned (.error Error.errExternalPortInUse), u.ports, [], pick.2.2⟩
        else
          match mapProtocol protocol with
          | .error msg => ⟨.panicked msg, u.ports, [], pick.2.2⟩
          | .ok proto =>
            let call := UpnpCall.add "" (toUint16 externalPort) proto (toUint16 internalPort)
              ip true description timeoutInSeconds
            match w.reply 0 with
            | some e => ⟨.returned (.error e), u.ports, [call], pick.2.2⟩
            | none => ⟨.returned (.ok (externalPort, internalPort)), u.ports, [call], pick.2.2⟩
      | none =>
        let numTries := if internalPort = 0 then 3 else 1
        upnpNAT.tryLoop u.ports w protocol externalPort internalPort ip description
          timeoutInSeconds numTries [] pick.2.2 none

/-- The method `(*upnpNAT).DeletePortMapping`: the entry is deleted before the
arguments of the client call are evaluated. -/
def upnpNAT.DeletePortMapping (u : upnpNAT) (w : World) (protocol : String)
    (externalPort : Int) : Effect (Outcome (Option Error)) UpnpCall :=
  match u.ports externalPort with
  | some _ =>
    let ports := u.ports.delete externalPort
    match mapProtocol protocol with
    | .error msg => ⟨.panicked msg, ports, [], 0⟩
    | .ok proto =>
      ⟨.returned (w.reply 0), ports, [UpnpCall.delete "" (toUint16 externalPort) proto], 0⟩
  | none => ⟨.returned none, u.ports, [], 0⟩

/-! ## The interface `NAT` (`nat.go`) -/

/-- The interface `NAT` with its two implementations. -/
inductive NAT where
  | natpmp (n : natpmpNAT)
  | upnp (u : upnpNAT)

/-- A wire-client call of either adapter. -/
inductive Call where
  | pmp (c : PmpCall)
  | upnp (c : UpnpCall)
  deriving DecidableEq, Repr

/-- The internal port a wire-client call asks the gateway to map to. -/
def Call.internalPort : Call → Option Int
  | .pmp c => some c.internalPort
  | .upnp (.add _ _ _ internalPort _ _ _ _) => some internalPort
  | .upnp (.delete _ _ _) => none

/-- The cache of a handle. -/
def NAT.ports : NAT → Ports
  | .natpmp n => n.ports
  | .upnp u => u.ports

/-- The handle with its cache replaced: the handle as a call leaves it. -/
def NAT.setPorts : NAT → Ports → NAT
  | .natpmp n, p => .natpmp ⟨n.gateway, p⟩
  | .upnp u, p => .upnp ⟨p, u.typ, u.rootDevice⟩

/-- Dynamic dispatch of `GetInternalAddress`. -/
def NAT.GetInternalAddress (h : NAT) (w : World) : Except Error IP :=
  match h with
  | .natpmp n => n.GetInternalAddress w
  | .upnp u => u.GetInternalAddress w

/-- Dynamic dispatch of `AddPortMapping`. -/
def NAT.AddPortMapping (h : NAT) (w : World) (protocol : String)
    (externalPort internalPort : Int) (description : String) (timeout : Int) :
    Effect (Outcome (Except Error (Int × Int))) Call :=
  match h with
  | .natpmp n =>
    let r := n.AddPortMapping w protocol externalPort internalPort description timeout
    ⟨.returned r.ret, r.ports, r.calls.map Call.pmp, r.draws⟩
  | .upnp u =>
    let r := u.AddPortMapping w protocol externalPort internalPort description timeout
    ⟨r.ret, r.ports, r.calls.map Call.upnp, r.draws⟩

/-- Dynamic dispatch of `DeletePortMapping`. -/
def NAT.DeletePortMapping (h : NAT) (w : World) (protocol : String) (externalPort : Int) :
    Effect (Outcome (Option Error)) Call :=
  match h with
  | .natpmp n =>
    let r := n.DeletePortMapping protocol externalPort
    ⟨.returned r.ret, r.ports, r.calls.map Call.pmp, r.draws⟩
  | .upnp u =>
    let r := u.DeletePortMapping w protocol externalPort
    ⟨r.ret, r.ports, r.calls.map Call.upnp, r.draws⟩

/-- Whether the handle is a UPnP one whose `AddPortMapping` is stopped by its
first statement, the internal-address lookup. -/
def NAT.lookupFails (h : NAT) (w : World) : Bool :=
  match h with
  | .natpmp _ => false
  | .upnp u =>
    match u.GetInternalAddress w with
    | .error _ => true
    | .ok _ => false

/-- Whether the handle is a UPnP one and `mapProtocol` panics on `protocol`. -/
def NAT.protocolPanics (h : NAT) (protocol : String) : Bool :=
  match h with
  | .natpmp _ => false
  | .upnp _ =>
    match mapProtocol protocol with
    | .error _ => true
    | .ok _ => false

/-! ## Vocabulary of the statements -/

/-- The UPnP client call that carries what a NAT-PMP client call carries. -/
def upnpCallOf (proto : String) (ip : IP) (description : String) (c : PmpCall) : UpnpCall :=
  .add "" (toUint16 c.externalPort) proto (toUint16 c.internalPort) ip true description
    (toUint32 c.lifetime)

/-- The client calls of `m` attempts of the new-entry loop of the NAT-PMP
adapter, the first of which finds `k` random values already consumed. -/
def pmpAttempts (w : World) (protocol : String) (E I t : Int) (k m : Nat) : List PmpCall :=
  (List.range m).map fun i =>
    ⟨protocol, if I = 0 then randomPort (w.rand (k + i)) else I, E, t⟩

/-- The NAT-PMP handle with the cache of `h`: the allocation algorithm alone. -/
def NAT.core : NAT → natpmpNAT
  | .natpmp n => n
  | .upnp u => ⟨[], u.ports⟩

/-- The wire-client call of handle `h` that carries what the NAT-PMP call `c`
carries. -/
def NAT.wire (h : NAT) (w : World) (protocol description : String) (c : PmpCall) : Call :=
  match h with
  | .natpmp _ => .pmp c
  | .upnp u =>
    match u.GetInternalAddress w, mapProtocol protocol with
    | .ok ip, .ok proto => .upnp (upnpCallOf proto ip description c)
    | _, _ => .pmp c

/-! ## Concrete hosts, backends and handles -/

/-- A host with the single interface address 10.0.0.5/24. -/
def homeNet : List (Except Error (List Addr)) :=
  [.ok [Addr.ipNet ⟨[10, 0, 0, 5], [255, 255, 255, 0]⟩]]

/-- The gateway 10.0.0.1 is on the subnet of the host, the backend accepts every
call and the random source hands out 0, 1, 2, ... -/
def worldAccepting : World := ⟨fun k => k, fun _ => none, .ok homeNet, fun _ => .ok [10, 0, 0, 1]⟩

/-- As `worldAccepting`, but the backend rejects its first two calls. -/
def worldThirdTime : World :=
  ⟨fun k => k, fun k => if k < 2 then some (Error.foreign 7) else none, .ok homeNet,
    fun _ => .ok [10, 0, 0, 1]⟩

/-- As `worldAccepting`, but the backend rejects every call, the `k`-th with the
error `foreign (k + 1)`. -/
def worldRejecting : World :=
  ⟨fun k => k, fun k => some (Error.foreign (k + 1)), .ok homeNet, fun _ => .ok [10, 0, 0, 1]⟩

/-- An accepting backend on a host with no interface at all. -/
def worldNoInterface : World := ⟨fun k => k, fun _ => none, .ok [], fun _ => .ok [10, 0, 0, 1]⟩

/-- A backend that rejects every call, on a host with no interface at all. -/
def worldRejectingNoInterface : World :=
  ⟨fun k => k, fun k => some (Error.foreign (k + 1)), .ok [], fun _ => .ok [10, 0, 0, 1]⟩

/-- A NAT-PMP handle as discovery creates it. -/
def pmpEmpty : NAT := .natpmp ⟨[10, 0, 0, 1], Ports.empty⟩

/-- A UPnP handle as discovery creates it. -/
def upnpEmpty : NAT := .upnp ⟨Ports.empty, "UPNP (IG1-IP1)", "10.0.0.1:5000"⟩

/-- A NAT-PMP handle whose cache maps 20000 to 80. -/
def pmpBound : NAT := .natpmp ⟨[10, 0, 0, 1], Ports.empty.set 20000 80⟩

/-- A UPnP handle whose cache maps 20000 to 80. -/
def upnpBound : NAT := .upnp ⟨Ports.empty.set 20000 80, "UPNP (IG1-IP1)", "10.0.0.1:5000"⟩

/-- One `AddPortMapping` request: the arguments and what the collaborators
answer while it runs. -/
structure AddRequest where
  world : World
  protocol : String
  externalPort : Int
  internalPort : Int
  description : String
  timeout : Int

/-- A sequence of `AddPortMapping` calls on one handle, each finding the cache
as the previous one left it; the answers, in order.  A panic is taken to be
recovered by the caller, so the sequence goes on. -/
def NAT.addAll (h : NAT) : List AddRequest → List (Outcome (Except Error (Int × Int)))
  | [] => []
  | a :: rest =>
    (h.AddPortMapping a.world a.protocol a.externalPort a.internalPort a.description
        a.timeout).ret ::
      (h.setPorts (h.AddPortMapping a.world a.protocol a.externalPort a.internalPort
        a.description a.timeout).ports).addAll rest

/-- The external ports of the successful answers, in order. -/
def mappedExternalPorts : List (Outcome (Except Error (Int × Int))) → List Int
  | [] => []
  | Outcome.returned (Except.ok (e, _)) :: rest => e :: mappedExternalPorts rest
  | Outcome.returned (Except.error _) :: rest => mappedExternalPorts rest
  | Outcome.panicked _ :: rest => mappedExternalPorts rest

/-- The external port a wire-client call names. -/
def Call.externalPort : Call → Int
  | .pmp c => c.externalPort
  | .upnp (.add _ externalPort _ _ _ _ _ _) => externalPort
  | .upnp (.delete _ externalPort _) => externalPort

/-- Two automatic allocations against an accepting backend. -/
def twoAutomatic : List AddRequest :=
  [⟨worldAccepting, "tcp", 0, 8080, "a", 0⟩, ⟨worldAccepting, "udp", 0, 0, "b", 0⟩]

/-- Dynamic dispatch of `GetDeviceAddress`. -/
def NAT.GetDeviceAddress (h : NAT) (w : World) : Except Error IP :=
  match h with
  | .natpmp n => n.GetDeviceAddress
  | .upnp u => u.GetDeviceAddress w

/-- The subnets (`*net.IPNet` addresses) of a list of interfaces, in
enumeration order. -/
def subnetsOf (ifaces : List (List Addr)) : List IPNet :=
  ifaces.flatten.filterMap fun a =>
    match a with
    | Addr.ipNet x => some x
    | Addr.other => none

/-- The first interface address, in enumeration order, whose subnet contains
`gw`. -/
def firstContaining (ifaces : List (List Addr)) (gw : IP) : Option IPNet :=
  (subnetsOf ifaces).find? fun x => x.Contains gw

/-! ## Lemmas: `randomPort` and the selection loop -/

theorem randomPort_ge (r : Nat) : 10000 ≤ randomPort r := by
  unfold randomPort; omega

theorem randomPort_lt (r : Nat) : randomPort r < 65535 := by
  unfold randomPort intn maxUint16
  have : r % (65535 - 10000) < 65535 - 10000 := Nat.mod_lt _ (by norm_num)
  omega

theorem randomPort_ne_zero (r : Nat) : randomPort r ≠ 0 := by
  have := randomPort_ge r; omega

theorem toUint16_randomPort (r : Nat) : toUint16 (randomPort r) = randomPort r := by
  have h1 := randomPort_ge r
  have h2 := randomPort_lt r
  unfold toUint16; omega

/-- The loop started with `found = true`: either it stops at the first free
draw `j`, or all `fuel` draws are keys of the cache. -/
theorem pickLoop_spec (ports : Ports) (rand : Nat → Nat) (fuel k : Nat) (e : Int) :
    (∃ j, j < fuel ∧ (∀ i, i < j → ports (randomPort (rand (k + i))) ≠ none) ∧
        ports (randomPort (rand (k + j))) = none ∧
        pickLoop ports rand fuel k e true = (randomPort (rand (k + j)), false, k + j + 1)) ∨
    ((∀ i, i < fuel → ports (randomPort (rand (k + i))) ≠ none) ∧
        (pickLoop ports rand fuel k e true).2.1 = true ∧
        (pickLoop ports rand fuel k e true).2.2 = k + fuel) := by
  induction fuel generalizing k e with
  | zero => right; simp [pickLoop]
  | succ fuel ih =>
    cases hp : ports (randomPort (rand k)) with
    | none =>
      left
      refine ⟨0, by omega, by intro i hi; omega, by simpa using hp, ?_⟩
      simp [pickLoop, hp]
    | some v =>
      have hstep : pickLoop ports rand (fuel + 1) k e true
          = pickLoop ports rand fuel (k + 1) (randomPort (rand k)) true := by
        simp [pickLoop, hp]
      rcases ih (k + 1) (randomPort (rand k)) with ⟨j, hj, hbefore, hfree, heq⟩ | ⟨hall, hf, hd⟩
      · left
        refine ⟨j + 1, by omega, ?_, ?_, ?_⟩
        · intro i hi
          cases i with
          | zero => simp [hp]
          | succ i =>
            have := hbefore i (by omega)
            rwa [show k + 1 + i = k + (i + 1) by omega] at this
        · rwa [show k + 1 + j = k + (j + 1) by omega] at hfree
        · rw [hstep, heq]
          rw [show k + 1 + j = k + (j + 1) by omega]
      · right
        refine ⟨?_, ?_, ?_⟩
        · intro i hi
          cases i with
          | zero => simp [hp]
          | succ i =>
            have := hall i (by omega)
            rwa [show k + 1 + i = k + (i + 1) by omega] at this
        · rw [hstep]; exact hf
        · rw [hstep, hd]; omega

/-- A non-zero external port is taken as given. -/
theorem pick_nonzero (ports : Ports) (rand : Nat → Nat) (E : Int) (hE : E ≠ 0) :
    pickExternalPort ports rand E = (E, false, 0) := by
  simp [pickExternalPort, hE]

/-- Automatic selection: the first free draw among the first 100, or `found`. -/
theorem pick_zero (ports : Ports) (rand : Nat → Nat) :
    (∃ j, j < 100 ∧ (∀ i, i < j → ports (randomPort (rand i)) ≠ none) ∧
        ports (randomPort (rand j)) = none ∧
        pickExternalPort ports rand 0 = (randomPort (rand j), false, j + 1)) ∨
    ((∀ i, i < 100 → ports (randomPort (rand i)) ≠ none) ∧
        (pickExternalPort ports rand 0).2.1 = true) := by
  have h := pickLoop_spec ports rand 100 0 0
  simp only [Nat.zero_add] at h
  rcases h with ⟨j, hj, hb, hf, heq⟩ | ⟨hall, hf, _⟩
  · left; exact ⟨j, hj, hb, hf, by simp [pickExternalPort, heq]⟩
  · right; exact ⟨hall, by simpa [pickExternalPort] using hf⟩

/-- When automatic selection yields a port, that port is not a key of the cache. -/
theorem pick_zero_free (ports : Ports) (rand : Nat → Nat)
    (h : (pickExternalPort ports rand 0).2.1 = false) :
    ports (pickExternalPort ports rand 0).1 = none := by
  rcases pick_zero ports rand with ⟨j, _, _, hf, heq⟩ | ⟨_, hf⟩
  · rw [heq]; exact hf
  · rw [hf] at h; cases h

/-! ## Lemmas: the UPnP adapter runs the NAT-PMP algorithm behind two gates -/

theorem upnp_tryLoop_sim (ports : Ports) (w : World) (protocol proto : String) (E I : Int)
    (ip : IP) (description : String) (t : Int) (hp : mapProtocol protocol = .ok proto)
    (fuel : Nat) (calls : List PmpCall) (k : Nat) (err : Option Error) :
    upnpNAT.tryLoop ports w protocol E I ip description (toUint32 t) fuel
        (calls.map (upnpCallOf proto ip description)) k err
      = ⟨.returned (natpmpNAT.tryLoop ports w protocol E I t fuel calls k err).ret,
         (natpmpNAT.tryLoop ports w protocol E I t fuel calls k err).ports,
         (natpmpNAT.tryLoop ports w protocol E I t fuel calls k err).calls.map
           (upnpCallOf proto ip description),
         (natpmpNAT.tryLoop ports w protocol E I t fuel calls k err).draws⟩ := by
  induction fuel generalizing calls k err with
  | zero => simp [upnpNAT.tryLoop, natpmpNAT.tryLoop]
  | succ fuel ih =>
    simp only [upnpNAT.tryLoop, natpmpNAT.tryLoop, hp, List.length_map]
    by_cases hr : w.reply calls.length = none
    · simp [hr, upnpCallOf]
      split <;> rfl
    · simp only [hr, if_false]
      have := ih (calls ++ [⟨protocol, if I = 0 then randomPort (w.rand k) else I, E, t⟩])
        (if I = 0 then k + 1 else k) (w.reply calls.length)
      simp only [List.map_append, List.map_cons, List.map_nil, upnpCallOf] at this
      rw [← this]
      congr 2
      split <;> rfl

theorem upnp_add_sim (u : upnpNAT) (gw : IP) (w : World) (protocol proto : String) (E I : Int)
    (ip : IP) (description : String) (t : Int)
    (hl : u.GetInternalAddress w = .ok ip) (hp : mapProtocol protocol = .ok proto) :
    u.AddPortMapping w protocol E I description t
      = ⟨.returned ((natpmpNAT.mk gw u.ports).AddPortMapping w protocol E I description t).ret,
         ((natpmpNAT.mk gw u.ports).AddPortMapping w protocol E I description t).ports,
         ((natpmpNAT.mk gw u.ports).AddPortMapping w protocol E I description t).calls.map
           (upnpCallOf proto ip description),
         ((natpmpNAT.mk gw u.ports).AddPortMapping w protocol E I description t).draws⟩ := by
  simp only [upnpNAT.AddPortMapping, natpmpNAT.AddPortMapping, hl]
  by_cases hf : (pickExternalPort u.ports w.rand E).2.1 = true
  · simp [hf]
  · simp only [hf, Bool.false_eq_true, if_false]
    cases hc : u.ports (pickExternalPort u.ports w.rand E).1 with
    | some I' =>
      simp only [hp]
      by_cases hne : (if I = 0 then I' else I) = I'
      · simp only [hne, ne_eq, not_true_eq_false, if_false]
        cases hr : w.reply 0 <;> simp [upnpCallOf]
      · simp [hne]
    | none =>
      simp only []
      have := upnp_tryLoop_sim u.ports w protocol proto (pickExternalPort u.ports w.rand E).1 I
        ip description (Int.tdiv t second) hp (if I = 0 then 3 else 1) []
        (pickExternalPort u.ports w.rand E).2.2 none
      simpa using this

theorem upnp_add_lookup_error (u : upnpNAT) (w : World) (protocol : String) (E I : Int)
    (description : String) (t : Int) (e : Error) (hl : u.GetInternalAddress w = .error e) :
    u.AddPortMapping w protocol E I description t = ⟨.returned (.error e), u.ports, [], 0⟩ := by
  simp [upnpNAT.AddPortMapping, hl]

theorem natpmp_tryLoop_calls_mono (ports : Ports) (w : World) (protocol : String) (E I t : Int)
    (fuel : Nat) (calls : List PmpCall) (k : Nat) (err : Option Error) :
    calls.length ≤ (natpmpNAT.tryLoop ports w protocol E I t fuel calls k err).calls.length := by
  induction fuel generalizing calls k err with
  | zero => simp [natpmpNAT.tryLoop]
  | succ fuel ih =>
    simp only [natpmpNAT.tryLoop]
    by_cases hr : w.reply calls.length = none
    · simp [hr]
    · simp only [hr, if_false]
      refine le_trans ?_ (ih _ _ _)
      simp

theorem natpmp_tryLoop_calls_pos (ports : Ports) (w : World) (protocol : String) (E I t : Int)
    (fuel : Nat) (calls : List PmpCall) (k : Nat) (err : Option Error) :
    calls.length
      < (natpmpNAT.tryLoop ports w protocol E I t (fuel + 1) calls k err).calls.length := by
  simp only [natpmpNAT.tryLoop]
  by_cases hr : w.reply calls.length = none
  · simp [hr]
  · simp only [hr, if_false]
    refine lt_of_lt_of_le ?_ (natpmp_tryLoop_calls_mono _ _ _ _ _ _ _ _ _ _)
    simp

/-- With an invalid protocol the UPnP adapter panics exactly where the NAT-PMP
algorithm would issue its first client call, and returns like it elsewhere. -/
theorem upnp_add_panic (u : upnpNAT) (gw : IP) (w : World) (protocol msg : String) (E I : Int)
    (ip : IP) (description : String) (t : Int)
    (hl : u.GetInternalAddress w = .ok ip) (hp : mapProtocol protocol = .error msg) :
    (((natpmpNAT.mk gw u.ports).AddPortMapping w protocol E I description t).calls = [] ∧
      (u.AddPortMapping w protocol E I description t).ret
        = .returned ((natpmpNAT.mk gw u.ports).AddPortMapping w protocol E I description t).ret ∧
      (∃ e, ((natpmpNAT.mk gw u.ports).AddPortMapping w protocol E I description t).ret
        = .error e) ∧
      (u.AddPortMapping w protocol E I description t).ports = u.ports ∧
      (u.AddPortMapping w protocol E I description t).calls = []) ∨
    (((natpmpNAT.mk gw u.ports).AddPortMapping w protocol E I description t).calls ≠ [] ∧
      (u.AddPortMapping w protocol E I description t).ret = .panicked msg ∧
      (u.AddPortMapping w protocol E I description t).ports = u.ports ∧
      (u.AddPortMapping w protocol E I description t).calls = []) := by
  simp only [upnpNAT.AddPortMapping, natpmpNAT.AddPortMapping, hl]
  by_cases hf : (pickExternalPort u.ports w.rand E).2.1 = true
  · left; simp [hf]
  · simp only [hf, Bool.false_eq_true, if_false]
    cases hc : u.ports (pickExternalPort u.ports w.rand E).1 with
    | some I' =>
      simp only [hp]
      by_cases hne : (if I = 0 then I' else I) = I'
      · right
        simp only [hne, ne_eq, not_true_eq_false, if_false]
        cases hr : w.reply 0 <;> simp
      · left; simp [hne]
    | none =>
      right
      simp only []
      refine ⟨?_, ?_⟩
      · intro h0
        by_cases hI : I = 0
        · have := natpmp_tryLoop_calls_pos u.ports w protocol (pickExternalPort u.ports w.rand E).1
            I (Int.tdiv t second) 2 [] (pickExternalPort u.ports w.rand E).2.2 none
          simp only [hI, if_true] at h0
          simp only [hI] at this
          rw [h0] at this
          simp at this
        · have := natpmp_tryLoop_calls_pos u.ports w protocol (pickExternalPort u.ports w.rand E).1
            I (Int.tdiv t second) 0 [] (pickExternalPort u.ports w.rand E).2.2 none
          simp only [hI, if_false] at h0
          rw [h0] at this
          simp at this
      · by_cases hI : I = 0 <;> simp [hI, upnpNAT.tryLoop, hp]

/-! ## Lemmas: the anatomy of `AddPortMapping` -/

theorem pmpAttempts_succ (w : World) (protocol : String) (E I t : Int) (k m : Nat) :
    pmpAttempts w protocol E I t k (m + 1)
      = ⟨protocol, if I = 0 then randomPort (w.rand k) else I, E, t⟩ ::
          pmpAttempts w protocol E I t (if I = 0 then k + 1 else k) m := by
  unfold pmpAttempts
  rw [List.range_succ_eq_map]
  simp only [List.map_cons, List.map_map, Nat.add_zero]
  congr 1
  apply List.map_congr_left
  intro i _
  by_cases hI : I = 0
  · simp [hI]; congr 2; omega
  · simp [hI]

theorem natpmp_tryLoop_spec (ports : Ports) (w : World) (protocol : String) (E I t : Int)
    (fuel : Nat) (calls : List PmpCall) (k : Nat) (err : Option Error) :
    (∃ j, j < fuel ∧ (∀ i, i < j → w.reply (calls.length + i) ≠ none) ∧
        w.reply (calls.length + j) = none ∧
        (natpmpNAT.tryLoop ports w protocol E I t fuel calls k err).ret = .ok (E, I) ∧
        (natpmpNAT.tryLoop ports w protocol E I t fuel calls k err).ports = ports.set E I ∧
        (natpmpNAT.tryLoop ports w protocol E I t fuel calls k err).calls
          = calls ++ pmpAttempts w protocol E I t k (j + 1)) ∨
    ((∀ i, i < fuel → w.reply (calls.length + i) ≠ none) ∧
        (natpmpNAT.tryLoop ports w protocol E I t fuel calls k err).ret
          = goReturn 0 0 (if fuel = 0 then err else w.reply (calls.length + fuel - 1)) ∧
        (natpmpNAT.tryLoop ports w protocol E I t fuel calls k err).ports = ports ∧
        (natpmpNAT.tryLoop ports w protocol E I t fuel calls k err).calls
          = calls ++ pmpAttempts w protocol E I t k fuel) := by
  induction fuel generalizing calls k err with
  | zero => right; simp [natpmpNAT.tryLoop, pmpAttempts]
  | succ fuel ih =>
    by_cases hr : w.reply calls.length = none
    · left
      refine ⟨0, by omega, by intro i hi; omega, by simpa using hr, ?_, ?_, ?_⟩
      · simp [natpmpNAT.tryLoop, hr]
      · simp [natpmpNAT.tryLoop, hr]
      · simp [natpmpNAT.tryLoop, hr, pmpAttempts, List.range_succ]
    · have hstep : natpmpNAT.tryLoop ports w protocol E I t (fuel + 1) calls k err
          = natpmpNAT.tryLoop ports w protocol E I t fuel
              (calls ++ [⟨protocol, if I = 0 then randomPort (w.rand k) else I, E, t⟩])
              (if I = 0 then k + 1 else k) (w.reply calls.length) := by
        simp [natpmpNAT.tryLoop, hr]
      rw [hstep]
      have hlen : (calls ++ [(⟨protocol, if I = 0 then randomPort (w.rand k) else I, E, t⟩ :
          PmpCall)]).length = calls.length + 1 := by simp
      rcases ih (calls ++ [⟨protocol, if I = 0 then randomPort (w.rand k) else I, E, t⟩])
        (if I = 0 then k + 1 else k) (w.reply calls.length) with
        ⟨j, hj, hb, hf, hret, hports, hcalls⟩ | ⟨hall, hret, hports, hcalls⟩
      · left
        rw [hlen] at hb hf
        refine ⟨j + 1, by omega, ?_, ?_, hret, hports, ?_⟩
        · intro i hi
          cases i with
          | zero => simpa using hr
          | succ i =>
            have := hb i (by omega)
            rwa [show calls.length + 1 + i = calls.length + (i + 1) by omega] at this
        · rwa [show calls.length + 1 + j = calls.length + (j + 1) by omega] at hf
        · rw [hcalls, pmpAttempts_succ w protocol E I t k (j + 1)]
          simp
      · right
        rw [hlen] at hall hret
        refine ⟨?_, ?_, hports, ?_⟩
        · intro i hi
          cases i with
          | zero => simpa using hr
          | succ i =>
            have := hall i (by omega)
            rwa [show calls.length + 1 + i = calls.length + (i + 1) by omega] at this
        · rw [hret]
          congr 1
          by_cases hz : fuel = 0
          · simp [hz]
          · simp only [hz, if_false, Nat.add_one_ne_zero]
            congr 1; omega
        · rw [hcalls, pmpAttempts_succ w protocol E I t k fuel]
          simp

theorem core_ports (h : NAT) : h.core.ports = h.ports := by
  cases h <;> rfl

theorem add_lookup_fails (h : NAT) (w : World) (protocol : String) (E I : Int)
    (description : String) (t : Int) (hl : h.lookupFails w = true) :
    ∃ e, h.GetInternalAddress w = .error e ∧
      h.AddPortMapping w protocol E I description t = ⟨.returned (.error e), h.ports, [], 0⟩ := by
  cases h with
  | natpmp n => simp [NAT.lookupFails] at hl
  | upnp u =>
    cases hg : u.GetInternalAddress w with
    | error e =>
      exact ⟨e, by simp [NAT.GetInternalAddress, hg],
        by simp [NAT.AddPortMapping, NAT.ports, upnp_add_lookup_error u w protocol E I description t e hg]⟩
    | ok ip => simp [NAT.lookupFails, hg] at hl

theorem add_sim (h : NAT) (w : World) (protocol : String) (E I : Int)
    (description : String) (t : Int) (hl : h.lookupFails w = false)
    (hp : h.protocolPanics protocol = false) :
    h.AddPortMapping w protocol E I description t
      = ⟨.returned (h.core.AddPortMapping w protocol E I description t).ret,
         (h.core.AddPortMapping w protocol E I description t).ports,
         (h.core.AddPortMapping w protocol E I description t).calls.map
           (h.wire w protocol description),
         (h.core.AddPortMapping w protocol E I description t).draws⟩ := by
  cases h with
  | natpmp n =>
    simp only [NAT.AddPortMapping, NAT.core]
    congr 1
  | upnp u =>
    cases hg : u.GetInternalAddress w with
    | error e => simp [NAT.lookupFails, hg] at hl
    | ok ip =>
      cases hm : mapProtocol protocol with
      | error msg => simp [NAT.protocolPanics, hm] at hp
      | ok proto =>
        simp only [NAT.AddPortMapping, NAT.core]
        rw [upnp_add_sim u [] w protocol proto E I ip description t hg hm]
        simp only [List.map_map]
        congr 1
        apply List.map_congr_left
        intro c _
        simp [NAT.wire, hg, hm]

theorem add_panics (h : NAT) (w : World) (protocol : String) (E I : Int)
    (description : String) (t : Int) (hl : h.lookupFails w = false)
    (hp : h.protocolPanics protocol = true) :
    (h.AddPortMapping w protocol E I description t).ports = h.ports ∧
    (h.AddPortMapping w protocol E I description t).calls = [] ∧
    (((h.core.AddPortMapping w protocol E I description t).calls = [] ∧
      (∃ e, (h.core.AddPortMapping w protocol E I description t).ret = .error e) ∧
      (h.AddPortMapping w protocol E I description t).ret
        = .returned (h.core.AddPortMapping w protocol E I description t).ret) ∨
     ((h.core.AddPortMapping w protocol E I description t).calls ≠ [] ∧
      (h.AddPortMapping w protocol E I description t).ret
        = .panicked ("invalid protocol: " ++ protocol))) := by
  cases h with
  | natpmp n => simp [NAT.protocolPanics] at hp
  | upnp u =>
    cases hg : u.GetInternalAddress w with
    | error e => simp [NAT.lookupFails, hg] at hl
    | ok ip =>
      cases hm : mapProtocol protocol with
      | ok proto => simp [NAT.protocolPanics, hm] at hp
      | error msg =>
        have hmsg : msg = "invalid protocol: " ++ protocol := by
          unfold mapProtocol at hm
          split at hm
          · cases hm
          · split at hm
            · cases hm
            · injection hm with hm; exact hm.symm
        subst hmsg
        simp only [NAT.AddPortMapping, NAT.core, NAT.ports, List.map_eq_nil_iff]
        rcases upnp_add_panic u [] w protocol _ E I ip description t hg hm with
          ⟨h1, h2, h3, h4, h5⟩ | ⟨h1, h2, h3, h4⟩
        · exact ⟨h4, h5, Or.inl ⟨h1, h3, h2⟩⟩
        · exact ⟨h3, h4, Or.inr ⟨h1, h2⟩⟩

/-- The five ways `(*natpmpNAT).AddPortMapping` can go. -/
theorem natpmp_add_anatomy (n : natpmpNAT) (w : World) (protocol : String) (E I : Int)
    (description : String) (t : Int) :
    ((pickExternalPort n.ports w.rand E).2.1 = true ∧
      (n.AddPortMapping w protocol E I description t).ret
        = .error Error.errNoAvailableExternalPort ∧
      (n.AddPortMapping w protocol E I description t).ports = n.ports ∧
      (n.AddPortMapping w protocol E I description t).calls = []) ∨
    ((pickExternalPort n.ports w.rand E).2.1 = false ∧
      ∃ I', n.ports (pickExternalPort n.ports w.rand E).1 = some I' ∧ I ≠ 0 ∧ I ≠ I' ∧
      (n.AddPortMapping w protocol E I description t).ret = .error Error.errExternalPortInUse ∧
      (n.AddPortMapping w protocol E I description t).ports = n.ports ∧
      (n.AddPortMapping w protocol E I description t).calls = []) ∨
    ((pickExternalPort n.ports w.rand E).2.1 = false ∧
      ∃ I', n.ports (pickExternalPort n.ports w.rand E).1 = some I' ∧ (I = 0 ∨ I = I') ∧
      (n.AddPortMapping w protocol E I description t).ret
        = goReturn (pickExternalPort n.ports w.rand E).1 I' (w.reply 0) ∧
      (n.AddPortMapping w protocol E I description t).ports = n.ports ∧
      (n.AddPortMapping w protocol E I description t).calls
        = [⟨protocol, I', (pickExternalPort n.ports w.rand E).1, Int.tdiv t second⟩]) ∨
    ((pickExternalPort n.ports w.rand E).2.1 = false ∧
      n.ports (pickExternalPort n.ports w.rand E).1 = none ∧
      ∃ j, j < (if I = 0 then 3 else 1) ∧ (∀ i, i < j → w.reply i ≠ none) ∧ w.reply j = none ∧
      (n.AddPortMapping w protocol E I description t).ret
        = .ok ((pickExternalPort n.ports w.rand E).1, I) ∧
      (n.AddPortMapping w protocol E I description t).ports
        = n.ports.set (pickExternalPort n.ports w.rand E).1 I ∧
      (n.AddPortMapping w protocol E I description t).calls
        = pmpAttempts w protocol (pickExternalPort n.ports w.rand E).1 I (Int.tdiv t second)
            (pickExternalPort n.ports w.rand E).2.2 (j + 1)) ∨
    ((pickExternalPort n.ports w.rand E).2.1 = false ∧
      n.ports (pickExternalPort n.ports w.rand E).1 = none ∧
      (∀ i, i < (if I = 0 then 3 else 1) → w.reply i ≠ none) ∧
      (n.AddPortMapping w protocol E I description t).ret
        = goReturn 0 0 (w.reply ((if I = 0 then 3 else 1) - 1)) ∧
      (n.AddPortMapping w protocol E I description t).ports = n.ports ∧
      (n.AddPortMapping w protocol E I description t).calls
        = pmpAttempts w protocol (pickExternalPort n.ports w.rand E).1 I (Int.tdiv t second)
            (pickExternalPort n.ports w.rand E).2.2 (if I = 0 then 3 else 1)) := by
  by_cases hf : (pickExternalPort n.ports w.rand E).2.1 = true
  · left; simp [natpmpNAT.AddPortMapping, hf]
  · right
    have hf' : (pickExternalPort n.ports w.rand E).2.1 = false := by simpa using hf
    cases hc : n.ports (pickExternalPort n.ports w.rand E).1 with
    | some I' =>
      by_cases hne : (if I = 0 then I' else I) = I'
      · right; left
        refine ⟨hf', I', rfl, ?_, ?_⟩
        · by_cases hI : I = 0
          · exact Or.inl hI
          · right; simpa [hI] using hne
        · simp only [natpmpNAT.AddPortMapping, hf', hc, hne]
          cases hr : w.reply 0 <;> simp [goReturn]
      · left
        refine ⟨hf', I', rfl, ?_, ?_, ?_⟩
        · intro hI; simp [hI] at hne
        · intro hI
          apply hne
          by_cases h0 : I = 0
          · simp [h0]
          · simpa [h0] using hI
        · simp [natpmpNAT.AddPortMapping, hf', hc, hne]
    | none =>
      right; right
      have hr : n.AddPortMapping w protocol E I description t
          = natpmpNAT.tryLoop n.ports w protocol (pickExternalPort n.ports w.rand E).1 I
              (Int.tdiv t second) (if I = 0 then 3 else 1) []
              (pickExternalPort n.ports w.rand E).2.2 none := by
        simp [natpmpNAT.AddPortMapping, hf', hc]
      rw [hr]
      rcases natpmp_tryLoop_spec n.ports w protocol (pickExternalPort n.ports w.rand E).1 I
        (Int.tdiv t second) (if I = 0 then 3 else 1) []
        (pickExternalPort n.ports w.rand E).2.2 none with
        ⟨j, hj, hb, hfree, hret, hports, hcalls⟩ | ⟨hall, hret, hports, hcalls⟩
      · left
        refine ⟨hf', rfl, j, hj, ?_, ?_, hret, hports, ?_⟩
        · intro i hi; simpa using hb i hi
        · simpa using hfree
        · simpa using hcalls
      · right
        refine ⟨hf', rfl, ?_, ?_, hports, ?_⟩
        · intro i hi; simpa using hall i hi
        · rw [hret]
          by_cases hI : I = 0 <;> simp [hI]
        · simpa using hcalls

/-! ## C1: the internal port of the accepted attempt -/

theorem wire_internalPort (h : NAT) (w : World) (protocol description : String) (c : PmpCall)
    (r : Nat) (hc : c.internalPort = randomPort r) :
    (h.wire w protocol description c).internalPort = some (randomPort r) := by
  cases h with
  | natpmp n => simp [NAT.wire, Call.internalPort, hc]
  | upnp u =>
    simp only [NAT.wire]
    split
    · simp [Call.internalPort, upnpCallOf, hc, toUint16_randomPort]
    · simp [Call.internalPort, hc]

theorem natpmp_add_third_attempt (n : natpmpNAT) (w : World) (protocol : String) (E : Int)
    (description : String) (t : Int) (hE : E ≠ 0) (hnew : n.ports E = none)
    (h0 : w.reply 0 ≠ none) (h1 : w.reply 1 ≠ none) (h2 : w.reply 2 = none) :
    n.AddPortMapping w protocol E 0 description t
      = ⟨.ok (E, 0), n.ports.set E 0,
          [⟨protocol, randomPort (w.rand 0), E, Int.tdiv t second⟩,
           ⟨protocol, randomPort (w.rand 1), E, Int.tdiv t second⟩,
           ⟨protocol, randomPort (w.rand 2), E, Int.tdiv t second⟩], 3⟩ := by
  simp [natpmpNAT.AddPortMapping, pick_nonzero _ _ E hE, hnew, natpmpNAT.tryLoop, h0, h1, h2]

/-- C1 (the code departs from the claim): on a new external port `E` with
`internalPort = 0`, when the backend rejects the first two attempts and accepts
the third, the client was handed the randomly drawn ports `randomPort`, the
third of which is not 0, but the call returns `(E, 0)` and the cache records
`E -> 0`: the port used on the accepted attempt is neither returned nor
recorded. -/
theorem C1_accepted_internal_port_not_returned (h : NAT) (w : World) (protocol : String)
    (E : Int) (description : String) (t : Int)
    (hE : E ≠ 0) (hnew : h.ports E = none)
    (hl : h.lookupFails w = false) (hp : h.protocolPanics protocol = false)
    (h0 : w.reply 0 ≠ none) (h1 : w.reply 1 ≠ none) (h2 : w.reply 2 = none) :
    (h.AddPortMapping w protocol E 0 description t).ret = .returned (.ok (E, 0)) ∧
    (h.AddPortMapping w protocol E 0 description t).ports E = some 0 ∧
    (h.AddPortMapping w protocol E 0 description t).calls.map Call.internalPort
      = [some (randomPort (w.rand 0)), some (randomPort (w.rand 1)),
         some (randomPort (w.rand 2))] ∧
    randomPort (w.rand 2) ≠ 0 := by
  have hnew' : h.core.ports E = none := by rw [core_ports]; exact hnew
  rw [add_sim h w protocol E 0 description t hl hp,
    natpmp_add_third_attempt h.core w protocol E description t hE hnew' h0 h1 h2]
  refine ⟨rfl, by simp [Ports.set], ?_, randomPort_ne_zero _⟩
  simp only [List.map_cons, List.map_nil]
  rw [wire_internalPort h w protocol description _ (w.rand 0) rfl,
    wire_internalPort h w protocol description _ (w.rand 1) rfl,
    wire_internalPort h w protocol description _ (w.rand 2) rfl]

/-- The failing input of C1: a NAT-PMP handle with an empty cache, external port
20000, a backend that accepts the third attempt. -/
theorem C1_accepted_internal_port_not_returned_witness :
    (pmpEmpty.AddPortMapping worldThirdTime "tcp" 20000 0 "svc" 0).ret
      = .returned (.ok (20000, 0)) ∧
    (pmpEmpty.AddPortMapping worldThirdTime "tcp" 20000 0 "svc" 0).ports 20000 = some 0 ∧
    (pmpEmpty.AddPortMapping worldThirdTime "tcp" 20000 0 "svc" 0).calls.map Call.internalPort
      = [some (randomPort (worldThirdTime.rand 0)), some (randomPort (worldThirdTime.rand 1)),
         some (randomPort (worldThirdTime.rand 2))] ∧
    randomPort (worldThirdTime.rand 2) ≠ 0 :=
  C1_accepted_internal_port_not_returned pmpEmpty worldThirdTime "tcp" 20000 "svc" 0
    (by decide) rfl rfl rfl (by decide) (by decide) rfl

/-! ## C2: a conflicting internal port -/

theorem natpmp_add_conflict (n : natpmpNAT) (w : World) (protocol : String) (E I1 I2 : Int)
    (description : String) (t : Int) (hE : E ≠ 0) (hc : n.ports E = some I1)
    (h2 : I2 ≠ 0) (hne : I2 ≠ I1) :
    n.AddPortMapping w protocol E I2 description t
      = ⟨.error Error.errExternalPortInUse, n.ports, [], 0⟩ := by
  simp [natpmpNAT.AddPortMapping, pick_nonzero _ _ E hE, hc, h2, hne]

/-- C2 (amended): when the cache maps a non-zero `E` to `I1` and the requested
internal port `I2` is neither 0 nor `I1`, `AddPortMapping` issues no backend
call and leaves the cache unmodified (it still maps `E` to `I1`); it fails with
`errExternalPortInUse` on a NAT-PMP handle and on a UPnP handle whose
internal-address lookup succeeds, and with the error of that lookup on a UPnP
handle whose lookup fails. -/
theorem C2_conflicting_internal_port (h : NAT) (w : World) (protocol : String)
    (E I1 I2 : Int) (description : String) (t : Int)
    (hE : E ≠ 0) (hc : h.ports E = some I1) (h2 : I2 ≠ 0) (hne : I2 ≠ I1) :
    (h.lookupFails w = false →
      (h.AddPortMapping w protocol E I2 description t).ret
        = .returned (.error Error.errExternalPortInUse)) ∧
    (h.lookupFails w = true → ∃ e, h.GetInternalAddress w = .error e ∧
      (h.AddPortMapping w protocol E I2 description t).ret = .returned (.error e)) ∧
    (h.AddPortMapping w protocol E I2 description t).calls = [] ∧
    (h.AddPortMapping w protocol E I2 description t).ports = h.ports ∧
    (h.AddPortMapping w protocol E I2 description t).ports E = some I1 := by
  have hc' : h.core.ports E = some I1 := by rw [core_ports]; exact hc
  have hcore := natpmp_add_conflict h.core w protocol E I1 I2 description t hE hc' h2 hne
  rcases Bool.eq_false_or_eq_true (h.lookupFails w) with hl | hl
  · obtain ⟨e, he, hr⟩ := add_lookup_fails h w protocol E I2 description t hl
    rw [hr]
    exact ⟨fun hl' => by simp [hl] at hl', fun _ => ⟨e, he, rfl⟩, rfl, rfl, hc⟩
  · rcases Bool.eq_false_or_eq_true (h.protocolPanics protocol) with hp | hp
    · obtain ⟨hports, hcalls, hret⟩ := add_panics h w protocol E I2 description t hl hp
      rw [hcore] at hret
      rcases hret with ⟨_, _, hret⟩ | ⟨hne', _⟩
      · exact ⟨fun _ => hret, fun hl' => by simp [hl] at hl', hcalls, hports,
          by rw [hports]; exact hc⟩
      · exact absurd rfl hne'
    · rw [add_sim h w protocol E I2 description t hl hp, hcore, core_ports]
      exact ⟨fun _ => rfl, fun hl' => by simp [hl] at hl', rfl, rfl, hc⟩

/-- An instance of C2 (amended): the cache maps 20000 to 80 and port 81 is requested. -/
theorem C2_conflicting_internal_port_witness :
    (pmpBound.AddPortMapping worldAccepting "tcp" 20000 81 "svc" 0).ret
      = .returned (.error Error.errExternalPortInUse) ∧
    (pmpBound.AddPortMapping worldAccepting "tcp" 20000 81 "svc" 0).calls = [] ∧
    (pmpBound.AddPortMapping worldAccepting "tcp" 20000 81 "svc" 0).ports 20000 = some 80 :=
  ⟨(C2_conflicting_internal_port pmpBound worldAccepting "tcp" 20000 80 81 "svc" 0
      (by decide) rfl (by decide) (by decide)).1 rfl,
   (C2_conflicting_internal_port pmpBound worldAccepting "tcp" 20000 80 81 "svc" 0
      (by decide) rfl (by decide) (by decide)).2.2.1,
   (C2_conflicting_internal_port pmpBound worldAccepting "tcp" 20000 80 81 "svc" 0
      (by decide) rfl (by decide) (by decide)).2.2.2.2⟩

/-- C2 fails as stated: a UPnP handle whose cache maps 20000 to 80, on a host
none of whose interfaces is on the subnet of the gateway, answers a request for
internal port 81 with `errNoInternalAddress`, not `errExternalPortInUse`. -/
theorem C2_counterexample :
    upnpBound.ports 20000 = some 80 ∧ (20000 : Int) ≠ 0 ∧ (81 : Int) ≠ 0 ∧ (81 : Int) ≠ 80 ∧
    (upnpBound.AddPortMapping worldNoInterface "tcp" 20000 81 "svc" 0).ret
      = .returned (.error Error.errNoInternalAddress) ∧
    (upnpBound.AddPortMapping worldNoInterface "tcp" 20000 81 "svc" 0).ret
      ≠ .returned (.error Error.errExternalPortInUse) := by
  refine ⟨rfl, by decide, by decide, by decide, rfl, ?_⟩
  intro h
  have h' : (upnpBound.AddPortMapping worldNoInterface "tcp" 20000 81 "svc" 0).ret
      = .returned (.error Error.errNoInternalAddress) := rfl
  rw [h'] at h
  cases h

/-! ## C3: automatic allocations are pairwise distinct -/

theorem setPorts_ports (h : NAT) (p : Ports) : (h.setPorts p).ports = p := by
  cases h <;> rfl

theorem setPorts_self (h : NAT) : h.setPorts h.ports = h := by
  cases h <;> rfl

theorem goReturn_some (a b : Int) (o : Option Error) (ho : o ≠ none) :
    ∃ e, o = some e ∧ goReturn a b o = .error e := by
  cases o with
  | none => exact absurd rfl ho
  | some e => exact ⟨e, rfl, rfl⟩

/-- A successful NAT-PMP `AddPortMapping` returns the resolved external port and
either creates its entry or renews it; a failed one leaves the cache alone. -/
theorem natpmp_add_step (n : natpmpNAT) (w : World) (protocol : String) (E I : Int)
    (description : String) (t : Int) :
    (∃ io, (n.AddPortMapping w protocol E I description t).ret
        = .ok ((pickExternalPort n.ports w.rand E).1, io) ∧
      (pickExternalPort n.ports w.rand E).2.1 = false ∧
      ((n.ports (pickExternalPort n.ports w.rand E).1 = none ∧ io = I ∧
          (n.AddPortMapping w protocol E I description t).ports
            = n.ports.set (pickExternalPort n.ports w.rand E).1 io) ∨
       (n.ports (pickExternalPort n.ports w.rand E).1 = some io ∧
          (n.AddPortMapping w protocol E I description t).ports = n.ports))) ∨
    ((∃ e, (n.AddPortMapping w protocol E I description t).ret = .error e) ∧
      (n.AddPortMapping w protocol E I description t).ports = n.ports) := by
  rcases natpmp_add_anatomy n w protocol E I description t with
    ⟨_, hret, hports, _⟩ | ⟨_, I', _, _, _, hret, hports, _⟩ |
    ⟨hf, I', hc, _, hret, hports, _⟩ | ⟨hf, hc, j, _, _, _, hret, hports, _⟩ |
    ⟨_, _, hall, hret, hports, _⟩
  · right; exact ⟨⟨_, hret⟩, hports⟩
  · right; exact ⟨⟨_, hret⟩, hports⟩
  · cases hr : w.reply 0 with
    | none =>
      left
      rw [hr] at hret
      exact ⟨I', hret, hf, Or.inr ⟨hc, hports⟩⟩
    | some e =>
      right
      rw [hr] at hret
      exact ⟨⟨e, hret⟩, hports⟩
  · left; exact ⟨I, hret, hf, Or.inl ⟨hc, rfl, hports⟩⟩
  · right
    obtain ⟨e, _, he⟩ := goReturn_some 0 0 (w.reply ((if I = 0 then 3 else 1) - 1))
      (hall _ (by split <;> omega))
    rw [he] at hret
    exact ⟨⟨e, hret⟩, hports⟩

/-- The same for any handle; a call that fails or panics leaves the cache alone. -/
theorem add_step (h : NAT) (w : World) (protocol : String) (E I : Int)
    (description : String) (t : Int) :
    (∃ io, (h.AddPortMapping w protocol E I description t).ret
        = .returned (.ok ((pickExternalPort h.ports w.rand E).1, io)) ∧
      (pickExternalPort h.ports w.rand E).2.1 = false ∧
      ((h.ports (pickExternalPort h.ports w.rand E).1 = none ∧ io = I ∧
          (h.AddPortMapping w protocol E I description t).ports
            = h.ports.set (pickExternalPort h.ports w.rand E).1 io) ∨
       (h.ports (pickExternalPort h.ports w.rand E).1 = some io ∧
          (h.AddPortMapping w protocol E I description t).ports = h.ports))) ∨
    ((∀ eo io, (h.AddPortMapping w protocol E I description t).ret
        ≠ .returned (.ok (eo, io))) ∧
      (h.AddPortMapping w protocol E I description t).ports = h.ports) := by
  rcases Bool.eq_false_or_eq_true (h.lookupFails w) with hl | hl
  · obtain ⟨e, _, hr⟩ := add_lookup_fails h w protocol E I description t hl
    right
    rw [hr]
    exact ⟨fun eo io hh => (by cases hh), rfl⟩
  · rcases Bool.eq_false_or_eq_true (h.protocolPanics protocol) with hp | hp
    · obtain ⟨hports, _, hret⟩ := add_panics h w protocol E I description t hl hp
      right
      refine ⟨?_, hports⟩
      intro eo io hh
      rcases hret with ⟨_, ⟨e, he⟩, hret⟩ | ⟨_, hret⟩
      · rw [hret, he] at hh; cases hh
      · rw [hret] at hh; cases hh
    · have hs := add_sim h w protocol E I description t hl hp
      have hcore := natpmp_add_step h.core w protocol E I description t
      rw [core_ports] at hcore
      rcases hcore with ⟨io, hret, hf, hcase⟩ | ⟨⟨e, he⟩, hports⟩
      · left
        refine ⟨io, by rw [hs, hret], hf, ?_⟩
        rcases hcase with ⟨hc, hio, hports⟩ | ⟨hc, hports⟩
        · left; exact ⟨hc, hio, by rw [hs]; exact hports⟩
        · right; exact ⟨hc, by rw [hs]; exact hports⟩
      · right
        refine ⟨?_, by rw [hs]; exact hports⟩
        intro eo io hh
        rw [hs] at hh
        simp only [he] at hh
        cases hh

/-- Automatic allocations: the returned ports are pairwise distinct and none of
them was a key of the cache the sequence started from. -/
theorem addAll_auto (reqs : List AddRequest) :
    ∀ h : NAT, (∀ a, a ∈ reqs → a.externalPort = 0) →
      (mappedExternalPorts (h.addAll reqs)).Nodup ∧
      ∀ e, e ∈ mappedExternalPorts (h.addAll reqs) → h.ports e = none := by
  induction reqs with
  | nil => intro h _; simp [NAT.addAll, mappedExternalPorts]
  | cons a rest ih =>
    intro h hz
    have ha : a.externalPort = 0 := hz a (List.mem_cons_self _ _)
    have hrest : ∀ b, b ∈ rest → b.externalPort = 0 :=
      fun b hb => hz b (List.mem_cons_of_mem _ hb)
    have hstep := add_step h a.world a.protocol a.externalPort a.internalPort a.description
      a.timeout
    simp only [NAT.addAll]
    rcases hstep with ⟨io, hret, hf, hcase⟩ | ⟨hno, hports⟩
    · have hfree : h.ports (pickExternalPort h.ports a.world.rand a.externalPort).1 = none := by
        rw [ha] at hf ⊢
        exact pick_zero_free _ _ hf
      rcases hcase with ⟨_, _, hports⟩ | ⟨hc, _⟩
      · rw [hret, hports]
        simp only [mappedExternalPorts]
        obtain ⟨hnd, hnone⟩ := ih (h.setPorts
          (h.ports.set (pickExternalPort h.ports a.world.rand a.externalPort).1 io)) hrest
        rw [setPorts_ports] at hnone
        refine ⟨List.nodup_cons.mpr ⟨?_, hnd⟩, ?_⟩
        · intro hmem
          have := hnone _ hmem
          simp [Ports.set] at this
        · intro e he
          rcases List.mem_cons.mp he with rfl | he
          · exact hfree
          · have := hnone e he
            simp only [Ports.set] at this
            split at this
            · cases this
            · exact this
      · rw [hfree] at hc; cases hc
    · rw [hports, setPorts_self]
      have htail := ih h hrest
      cases hr : (h.AddPortMapping a.world a.protocol a.externalPort a.internalPort
          a.description a.timeout).ret with
      | returned x =>
        cases x with
        | ok v => exact absurd hr (hno v.1 v.2)
        | error e => simpa [mappedExternalPorts] using htail
      | panicked msg => simpa [mappedExternalPorts] using htail

/-- C3: on any handle, from any starting cache, in any sequence of
`AddPortMapping` calls with `externalPort = 0` (no deletion in between), the
external ports returned by the successful calls are pairwise distinct, whatever
the random source draws and whatever the collaborators answer. -/
theorem C3_automatic_ports_pairwise_distinct (h : NAT) (reqs : List AddRequest)
    (hz : ∀ a, a ∈ reqs → a.externalPort = 0) :
    (mappedExternalPorts (h.addAll reqs)).Nodup :=
  (addAll_auto reqs h hz).1

/-- An instance of C3: two automatic allocations return 10000 and 10001. -/
theorem C3_automatic_ports_pairwise_distinct_witness :
    mappedExternalPorts (pmpEmpty.addAll twoAutomatic) = [10000, 10001] ∧
    (mappedExternalPorts (pmpEmpty.addAll twoAutomatic)).Nodup :=
  ⟨rfl, C3_automatic_ports_pairwise_distinct pmpEmpty twoAutomatic (by
    intro a ha
    simp only [twoAutomatic, List.mem_cons, List.mem_singleton, List.not_mem_nil, or_false] at ha
    rcases ha with rfl | rfl <;> rfl)⟩

/-! ## C4: renewal -/

theorem protocolPanics_tcp (h : NAT) : h.protocolPanics "tcp" = false := by
  cases h <;> rfl

theorem lookupFails_setPorts (h : NAT) (p : Ports) (w : World) :
    (h.setPorts p).lookupFails w = h.lookupFails w := by
  cases h <;> rfl

/-- Renewal of an existing entry that the backend accepts. -/
theorem add_renew_at (h : NAT) (w : World) (protocol : String) (E I I' : Int)
    (description : String) (t : Int)
    (hf : (pickExternalPort h.ports w.rand E).2.1 = false)
    (hc : h.ports (pickExternalPort h.ports w.rand E).1 = some I') (hI : I = 0 ∨ I = I')
    (hl : h.lookupFails w = false) (hp : h.protocolPanics protocol = false)
    (hr : w.reply 0 = none) :
    (h.AddPortMapping w protocol E I description t).ret
      = .returned (.ok ((pickExternalPort h.ports w.rand E).1, I')) ∧
    (h.AddPortMapping w protocol E I description t).ports = h.ports ∧
    (h.AddPortMapping w protocol E I description t).calls.length = 1 := by
  rw [add_sim h w protocol E I description t hl hp]
  have hcore := natpmp_add_anatomy h.core w protocol E I description t
  rw [core_ports] at hcore
  rcases hcore with ⟨hf', _⟩ | ⟨_, I'', hc', h0, hne, _⟩ | ⟨_, I'', hc', _, hret, hports, hcalls⟩ |
    ⟨_, hc', _⟩ | ⟨_, hc', _⟩
  · rw [hf] at hf'; cases hf'
  · rw [hc] at hc'; injection hc' with hc'; subst hc'
    rcases hI with hI | hI
    · exact absurd hI h0
    · exact absurd hI hne
  · rw [hc] at hc'; injection hc' with hc'; subst hc'
    rw [hr] at hret
    exact ⟨by simp [hret, goReturn], by simp [hports], by simp [hcalls]⟩
  · rw [hc] at hc'; cases hc'
  · rw [hc] at hc'; cases hc'

/-- Creation of a new entry with a given internal port that the backend accepts. -/
theorem add_create_at (h : NAT) (w : World) (protocol : String) (E I : Int)
    (description : String) (t : Int)
    (hf : (pickExternalPort h.ports w.rand E).2.1 = false)
    (hc : h.ports (pickExternalPort h.ports w.rand E).1 = none) (hI : I ≠ 0)
    (hl : h.lookupFails w = false) (hp : h.protocolPanics protocol = false)
    (hr : w.reply 0 = none) :
    (h.AddPortMapping w protocol E I description t).ret
      = .returned (.ok ((pickExternalPort h.ports w.rand E).1, I)) ∧
    (h.AddPortMapping w protocol E I description t).ports
      = h.ports.set (pickExternalPort h.ports w.rand E).1 I ∧
    (h.AddPortMapping w protocol E I description t).calls.length = 1 := by
  rw [add_sim h w protocol E I description t hl hp]
  have hcore := natpmp_add_anatomy h.core w protocol E I description t
  rw [core_ports] at hcore
  rcases hcore with ⟨hf', _⟩ | ⟨_, I'', hc', _⟩ | ⟨_, I'', hc', _⟩ |
    ⟨_, _, j, hj, _, _, hret, hports, hcalls⟩ | ⟨_, _, hall, _⟩
  · rw [hf] at hf'; cases hf'
  · rw [hc] at hc'; cases hc'
  · rw [hc] at hc'; cases hc'
  · simp only [hI, if_false] at hj
    have hj0 : j = 0 := by omega
    subst hj0
    exact ⟨by simp [hret], by simp [hports], by simp [hcalls, pmpAttempts]⟩
  · exact absurd hr (hall 0 (by split <;> omega))

/-- C4 (amended): for non-zero ports `E` and `I` such that the cache does not
map `E` to a port other than `I`, on a NAT-PMP handle or a UPnP handle whose
internal-address lookup succeeds at each call, if the backend accepts every
call then `AddPortMapping("tcp", E, I, d, t)` called twice in a row returns
`(E, I)` both times; the second call issues exactly one backend call and leaves
the cache as the first call left it; a further call with `internalPort = 0` for
the same `E` also returns `(E, I)`, issues one backend call and leaves the cache
as it was. -/
theorem C4_renewal_idempotent (h : NAT) (w1 w2 w3 : World) (E I : Int)
    (d : String) (t : Int) (d3 : String) (t3 : Int)
    (hE : E ≠ 0) (hI : I ≠ 0) (hfree : h.ports E = none ∨ h.ports E = some I)
    (hl1 : h.lookupFails w1 = false) (hl2 : h.lookupFails w2 = false)
    (hl3 : h.lookupFails w3 = false)
    (ha1 : ∀ k, w1.reply k = none) (ha2 : ∀ k, w2.reply k = none)
    (ha3 : ∀ k, w3.reply k = none) :
    (h.AddPortMapping w1 "tcp" E I d t).ret = .returned (.ok (E, I)) ∧
    ((h.setPorts (h.AddPortMapping w1 "tcp" E I d t).ports).AddPortMapping
      w2 "tcp" E I d t).ret = .returned (.ok (E, I)) ∧
    ((h.setPorts (h.AddPortMapping w1 "tcp" E I d t).ports).AddPortMapping
      w2 "tcp" E I d t).calls.length = 1 ∧
    ((h.setPorts (h.AddPortMapping w1 "tcp" E I d t).ports).AddPortMapping
      w2 "tcp" E I d t).ports = (h.AddPortMapping w1 "tcp" E I d t).ports ∧
    ((h.setPorts ((h.setPorts (h.AddPortMapping w1 "tcp" E I d t).ports).AddPortMapping
      w2 "tcp" E I d t).ports).AddPortMapping w3 "tcp" E 0 d3 t3).ret
        = .returned (.ok (E, I)) ∧
    ((h.setPorts ((h.setPorts (h.AddPortMapping w1 "tcp" E I d t).ports).AddPortMapping
      w2 "tcp" E I d t).ports).AddPortMapping w3 "tcp" E 0 d3 t3).calls.length = 1 ∧
    ((h.setPorts ((h.setPorts (h.AddPortMapping w1 "tcp" E I d t).ports).AddPortMapping
      w2 "tcp" E I d t).ports).AddPortMapping w3 "tcp" E 0 d3 t3).ports
        = (h.AddPortMapping w1 "tcp" E I d t).ports := by
  have hpick : ∀ (p : Ports) (w : World), pickExternalPort p w.rand E = (E, false, 0) :=
    fun p w => pick_nonzero p w.rand E hE
  -- the first call
  have h1 : (h.AddPortMapping w1 "tcp" E I d t).ret = .returned (.ok (E, I)) ∧
      (h.AddPortMapping w1 "tcp" E I d t).ports E = some I := by
    rcases hfree with hnone | hsome
    · obtain ⟨hret, hports, _⟩ := add_create_at h w1 "tcp" E I d t
        (by rw [hpick]) (by rw [hpick]; exact hnone) hI hl1 (protocolPanics_tcp h) (ha1 0)
      rw [hpick] at hret hports
      exact ⟨hret, by rw [hports]; simp [Ports.set]⟩
    · obtain ⟨hret, hports, _⟩ := add_renew_at h w1 "tcp" E I I d t
        (by rw [hpick]) (by rw [hpick]; exact hsome) (Or.inr rfl) hl1 (protocolPanics_tcp h)
        (ha1 0)
      rw [hpick] at hret
      exact ⟨hret, by rw [hports]; exact hsome⟩
  obtain ⟨hret1, hcache1⟩ := h1
  -- the second call
  obtain ⟨hret2, hports2, hcalls2⟩ := add_renew_at
    (h.setPorts (h.AddPortMapping w1 "tcp" E I d t).ports) w2 "tcp" E I I d t
    (by rw [hpick]) (by rw [hpick, setPorts_ports]; exact hcache1) (Or.inr rfl)
    (by rw [lookupFails_setPorts]; exact hl2) (protocolPanics_tcp _) (ha2 0)
  rw [hpick] at hret2
  rw [setPorts_ports] at hports2
  -- the third call
  obtain ⟨hret3, hports3, hcalls3⟩ := add_renew_at
    (h.setPorts ((h.setPorts (h.AddPortMapping w1 "tcp" E I d t).ports).AddPortMapping
      w2 "tcp" E I d t).ports) w3 "tcp" E 0 I d3 t3
    (by rw [hpick]) (by rw [hpick, setPorts_ports, hports2]; exact hcache1) (Or.inl rfl)
    (by rw [lookupFails_setPorts]; exact hl3) (protocolPanics_tcp _) (ha3 0)
  rw [hpick] at hret3
  exact ⟨hret1, hret2, hcalls2, hports2, hret3, hcalls3,
    hports3.trans ((setPorts_ports _ _).trans hports2)⟩

/-- C4 fails as stated: on a NAT-PMP handle whose cache maps 20000 to 80, with a
backend that accepts every call, `AddPortMapping("tcp", 20000, 81, ...)` fails
with `errExternalPortInUse` instead of returning `(20000, 81)`. -/
theorem C4_counterexample :
    (20000 : Int) ≠ 0 ∧ (81 : Int) ≠ 0 ∧ (∀ k, worldAccepting.reply k = none) ∧
    (pmpBound.AddPortMapping worldAccepting "tcp" 20000 81 "svc" 0).ret
      = .returned (.error Error.errExternalPortInUse) ∧
    (pmpBound.AddPortMapping worldAccepting "tcp" 20000 81 "svc" 0).ret
      ≠ .returned (.ok (20000, 81)) := by
  refine ⟨by decide, by decide, fun _ => rfl, rfl, ?_⟩
  intro h
  have h' : (pmpBound.AddPortMapping worldAccepting "tcp" 20000 81 "svc" 0).ret
      = .returned (.error Error.errExternalPortInUse) := rfl
  rw [h'] at h
  cases h

/-- An instance of C4 (amended): mapping 20000 to 8080 twice on an empty cache. -/
theorem C4_renewal_idempotent_witness :
    (pmpEmpty.AddPortMapping worldAccepting "tcp" 20000 8080 "svc" 0).ret
      = .returned (.ok (20000, 8080)) ∧
    ((pmpEmpty.setPorts (pmpEmpty.AddPortMapping worldAccepting "tcp" 20000 8080 "svc"
      0).ports).AddPortMapping worldAccepting "tcp" 20000 8080 "svc" 0).ret
      = .returned (.ok (20000, 8080)) :=
  ⟨(C4_renewal_idempotent pmpEmpty worldAccepting worldAccepting worldAccepting 20000 8080
      "svc" 0 "svc" 0 (by decide) (by decide) (Or.inl rfl) rfl rfl rfl
      (fun _ => rfl) (fun _ => rfl) (fun _ => rfl)).1,
   (C4_renewal_idempotent pmpEmpty worldAccepting worldAccepting worldAccepting 20000 8080
      "svc" 0 "svc" 0 (by decide) (by decide) (Or.inl rfl) rfl rfl rfl
      (fun _ => rfl) (fun _ => rfl) (fun _ => rfl)).2.1⟩

/-! ## C5: automatic external-port selection -/

theorem pick_zero_at (ports : Ports) (rand : Nat → Nat) (j : Nat) (hj : j < 100)
    (hkeys : ∀ i, i < j → ports (randomPort (rand i)) ≠ none)
    (hfree : ports (randomPort (rand j)) = none) :
    pickExternalPort ports rand 0 = (randomPort (rand j), false, j + 1) := by
  rcases pick_zero ports rand with ⟨j', hj', hb, hf, heq⟩ | ⟨hall, _⟩
  · have : j' = j := by
      rcases Nat.lt_trichotomy j' j with hlt | heq' | hgt
      · exact absurd hf (hkeys j' hlt)
      · exact heq'
      · exact absurd hfree (hb j hgt)
    subst this
    exact heq
  · exact absurd hfree (hall j hj)

theorem pick_zero_full (ports : Ports) (rand : Nat → Nat)
    (hkeys : ∀ i, i < 100 → ports (randomPort (rand i)) ≠ none) :
    (pickExternalPort ports rand 0).2.1 = true := by
  rcases pick_zero ports rand with ⟨j', hj', _, hf, _⟩ | ⟨_, hfound⟩
  · exact absurd hf (hkeys j' hj')
  · exact hfound

theorem pmpAttempts_externalPort (w : World) (protocol : String) (E I t : Int) (k m : Nat)
    (c : PmpCall) (hc : c ∈ pmpAttempts w protocol E I t k m) : c.externalPort = E := by
  simp only [pmpAttempts, List.mem_map] at hc
  obtain ⟨i, _, rfl⟩ := hc
  rfl

/-- Every client call of a NAT-PMP `AddPortMapping` names the resolved external port. -/
theorem natpmp_calls_externalPort (n : natpmpNAT) (w : World) (protocol : String) (E I : Int)
    (description : String) (t : Int) (c : PmpCall)
    (hc : c ∈ (n.AddPortMapping w protocol E I description t).calls) :
    c.externalPort = (pickExternalPort n.ports w.rand E).1 := by
  rcases natpmp_add_anatomy n w protocol E I description t with
    ⟨_, _, _, hcalls⟩ | ⟨_, I', _, _, _, _, _, hcalls⟩ | ⟨_, I', _, _, _, _, hcalls⟩ |
    ⟨_, _, j, _, _, _, _, _, hcalls⟩ | ⟨_, _, _, _, _, hcalls⟩
  · rw [hcalls] at hc; cases hc
  · rw [hcalls] at hc; cases hc
  · rw [hcalls] at hc
    rw [List.mem_singleton] at hc
    rw [hc]
  · rw [hcalls] at hc; exact pmpAttempts_externalPort _ _ _ _ _ _ _ _ hc
  · rw [hcalls] at hc; exact pmpAttempts_externalPort _ _ _ _ _ _ _ _ hc

theorem wire_externalPort (h : NAT) (w : World) (protocol description : String) (c : PmpCall)
    (r : Nat) (hc : c.externalPort = randomPort r) :
    (h.wire w protocol description c).externalPort = randomPort r := by
  cases h with
  | natpmp n => simp [NAT.wire, Call.externalPort, hc]
  | upnp u =>
    simp only [NAT.wire]
    split
    · simp [Call.externalPort, upnpCallOf, hc, toUint16_randomPort]
    · simp [Call.externalPort, hc]

/-- Every client call of an automatic allocation names the selected port. -/
theorem add_calls_externalPort (h : NAT) (w : World) (protocol : String) (I : Int)
    (description : String) (t : Int) (r : Nat)
    (hpk : (pickExternalPort h.ports w.rand 0).1 = randomPort r) (c : Call)
    (hc : c ∈ (h.AddPortMapping w protocol 0 I description t).calls) :
    c.externalPort = randomPort r := by
  rcases Bool.eq_false_or_eq_true (h.lookupFails w) with hl | hl
  · obtain ⟨e, _, hr⟩ := add_lookup_fails h w protocol 0 I description t hl
    rw [hr] at hc; cases hc
  · rcases Bool.eq_false_or_eq_true (h.protocolPanics protocol) with hp | hp
    · obtain ⟨_, hcalls, _⟩ := add_panics h w protocol 0 I description t hl hp
      rw [hcalls] at hc; cases hc
    · rw [add_sim h w protocol 0 I description t hl hp] at hc
      simp only [List.mem_map] at hc
      obtain ⟨c', hc', rfl⟩ := hc
      have := natpmp_calls_externalPort h.core w protocol 0 I description t c' hc'
      rw [core_ports, hpk] at this
      exact wire_externalPort h w protocol description c' r this

/-- C5 (amended): on a NAT-PMP handle, or a UPnP handle whose internal-address
lookup succeeds, when `AddPortMapping` is called with `externalPort = 0`: every
candidate drawn lies in `[10000, 65535)`; the external port used (named in every
backend call and returned on success) is the first of the first 100 draws that
is not a key of the cache; if all 100 draws are keys the call fails with
`errNoAvailableExternalPort`, with no backend call and the cache unchanged.  In
particular with a non-zero `internalPort` `I`, an empty cache, an accepting
backend and, on a UPnP handle, a protocol `mapProtocol` accepts, the call
returns `(E, I)` with `10000 <= E < 65535` and the cache becomes exactly
`E -> I`. -/
theorem C5_automatic_external_port (h : NAT) (w : World) (protocol : String) (I : Int)
    (description : String) (t : Int) (hl : h.lookupFails w = false) :
    (∀ k, 10000 ≤ randomPort (w.rand k) ∧ randomPort (w.rand k) < 65535) ∧
    ((∀ i, i < 100 → h.ports (randomPort (w.rand i)) ≠ none) →
      (h.AddPortMapping w protocol 0 I description t).ret
        = .returned (.error Error.errNoAvailableExternalPort) ∧
      (h.AddPortMapping w protocol 0 I description t).calls = [] ∧
      (h.AddPortMapping w protocol 0 I description t).ports = h.ports) ∧
    (∀ j, j < 100 → (∀ i, i < j → h.ports (randomPort (w.rand i)) ≠ none) →
      h.ports (randomPort (w.rand j)) = none →
      (∀ c, c ∈ (h.AddPortMapping w protocol 0 I description t).calls →
        c.externalPort = randomPort (w.rand j)) ∧
      (∀ eo io, (h.AddPortMapping w protocol 0 I description t).ret = .returned (.ok (eo, io)) →
        eo = randomPort (w.rand j)) ∧
      (I ≠ 0 → h.protocolPanics protocol = false → (∀ k, w.reply k = none) →
        (h.AddPortMapping w protocol 0 I description t).ret
          = .returned (.ok (randomPort (w.rand j), I)) ∧
        (h.AddPortMapping w protocol 0 I description t).ports
          = h.ports.set (randomPort (w.rand j)) I)) ∧
    (I ≠ 0 → h.ports = Ports.empty → h.protocolPanics protocol = false →
      (∀ k, w.reply k = none) →
      ∃ E, 10000 ≤ E ∧ E < 65535 ∧
        (h.AddPortMapping w protocol 0 I description t).ret = .returned (.ok (E, I)) ∧
        (h.AddPortMapping w protocol 0 I description t).ports = Ports.empty.set E I) := by
  have hthird : ∀ j, j < 100 → (∀ i, i < j → h.ports (randomPort (w.rand i)) ≠ none) →
      h.ports (randomPort (w.rand j)) = none →
      (∀ c, c ∈ (h.AddPortMapping w protocol 0 I description t).calls →
        c.externalPort = randomPort (w.rand j)) ∧
      (∀ eo io, (h.AddPortMapping w protocol 0 I description t).ret = .returned (.ok (eo, io)) →
        eo = randomPort (w.rand j)) ∧
      (I ≠ 0 → h.protocolPanics protocol = false → (∀ k, w.reply k = none) →
        (h.AddPortMapping w protocol 0 I description t).ret
          = .returned (.ok (randomPort (w.rand j), I)) ∧
        (h.AddPortMapping w protocol 0 I description t).ports
          = h.ports.set (randomPort (w.rand j)) I) := by
    intro j hj hkeys hfree
    have hpk := pick_zero_at h.ports w.rand j hj hkeys hfree
    refine ⟨?_, ?_, ?_⟩
    · intro c hc
      exact add_calls_externalPort h w protocol I description t (w.rand j) (by rw [hpk]) c hc
    · intro eo io hret
      rcases add_step h w protocol 0 I description t with ⟨io', hret', _⟩ | ⟨hno, _⟩
      · rw [hret', hpk] at hret
        injection hret with hret
        injection hret with hret
        injection hret with h1 _
        exact h1.symm
      · exact absurd hret (hno eo io)
    · intro hI hp hacc
      obtain ⟨hret, hports, _⟩ := add_create_at h w protocol 0 I description t
        (by rw [hpk]) (by rw [hpk]; exact hfree) hI hl hp (hacc 0)
      rw [hpk] at hret hports
      exact ⟨hret, hports⟩
  refine ⟨fun k => ⟨randomPort_ge _, randomPort_lt _⟩, ?_, hthird, ?_⟩
  · intro hkeys
    have hfound := pick_zero_full h.ports w.rand hkeys
    rcases Bool.eq_false_or_eq_true (h.protocolPanics protocol) with hp | hp
    · obtain ⟨hports, hcalls, hret⟩ := add_panics h w protocol 0 I description t hl hp
      rcases natpmp_add_anatomy h.core w protocol 0 I description t with
        ⟨_, hcret, _, hccalls⟩ | ⟨hf, _⟩ | ⟨hf, _⟩ | ⟨hf, _⟩ | ⟨hf, _⟩
      · rcases hret with ⟨_, _, hret⟩ | ⟨hne, _⟩
        · exact ⟨by rw [hret, hcret], hcalls, hports⟩
        · exact absurd hccalls hne
      all_goals (rw [core_ports, hfound] at hf; cases hf)
    · rw [add_sim h w protocol 0 I description t hl hp]
      rcases natpmp_add_anatomy h.core w protocol 0 I description t with
        ⟨_, hcret, hcports, hccalls⟩ | ⟨hf, _⟩ | ⟨hf, _⟩ | ⟨hf, _⟩ | ⟨hf, _⟩
      · rw [core_ports] at hcports
        exact ⟨by simp [hcret], by simp [hccalls], by simp [hcports]⟩
      all_goals (rw [core_ports, hfound] at hf; cases hf)
  · intro hI hempty hp hacc
    obtain ⟨_, _, hgood⟩ := hthird 0 (by omega) (by intro i hi; omega) (by rw [hempty]; rfl)
    obtain ⟨hret, hports⟩ := hgood hI hp hacc
    exact ⟨randomPort (w.rand 0), randomPort_ge _, randomPort_lt _, hret,
      by rw [hports, hempty]⟩

/-- An instance of C5 (amended): an automatic allocation for internal port 8080 on an
empty cache. -/
theorem C5_automatic_external_port_witness :
    ∃ E, 10000 ≤ E ∧ E < 65535 ∧
      (pmpEmpty.AddPortMapping worldAccepting "tcp" 0 8080 "svc" 0).ret
        = .returned (.ok (E, 8080)) ∧
      (pmpEmpty.AddPortMapping worldAccepting "tcp" 0 8080 "svc" 0).ports
        = Ports.empty.set E 8080 :=
  (C5_automatic_external_port pmpEmpty worldAccepting "tcp" 8080 "svc" 0 rfl).2.2.2
    (by decide) rfl rfl (fun _ => rfl)

/-- C5 fails as stated: a UPnP handle with an empty cache and an accepting
backend, on a host none of whose interfaces is on the subnet of the gateway, answers
`AddPortMapping("tcp", 0, 8080, "svc", 0)` with `errNoInternalAddress`; it
returns no pair `(E, 8080)`. -/
theorem C5_counterexample :
    upnpEmpty.ports = Ports.empty ∧ (8080 : Int) ≠ 0 ∧
    (∀ k, worldNoInterface.reply k = none) ∧
    (upnpEmpty.AddPortMapping worldNoInterface "tcp" 0 8080 "svc" 0).ret
      = .returned (.error Error.errNoInternalAddress) ∧
    ¬ ∃ E, (upnpEmpty.AddPortMapping worldNoInterface "tcp" 0 8080 "svc" 0).ret
      = .returned (.ok (E, 8080)) := by
  refine ⟨rfl, by decide, fun _ => rfl, rfl, ?_⟩
  rintro ⟨E, h⟩
  have h' : (upnpEmpty.AddPortMapping worldNoInterface "tcp" 0 8080 "svc" 0).ret
      = .returned (.error Error.errNoInternalAddress) := rfl
  rw [h'] at h
  cases h

/-! ## C6: deletion -/

theorem delete_ports (h : NAT) (w : World) (protocol : String) (E : Int) :
    (h.DeletePortMapping w protocol E).ports = h.ports.delete E := by
  cases h with
  | natpmp n => rfl
  | upnp u =>
    simp only [NAT.DeletePortMapping, upnpNAT.DeletePortMapping, NAT.ports]
    cases hc : u.ports E with
    | some v =>
      simp only []
      split <;> rfl
    | none =>
      funext x
      simp only [Ports.delete]
      split
      · next hx => rw [hx, hc]
      · rfl

theorem delete_absent (h : NAT) (w : World) (protocol : String) (E : Int)
    (hc : h.ports E = none) :
    (h.DeletePortMapping w protocol E).ret = .returned none ∧
    (h.DeletePortMapping w protocol E).calls = [] := by
  cases h with
  | natpmp n => exact ⟨rfl, rfl⟩
  | upnp u =>
    have hc' : u.ports E = none := hc
    simp [NAT.DeletePortMapping, upnpNAT.DeletePortMapping, hc']

/-- C6: `DeletePortMapping(protocol, E)` leaves the cache without an entry for
`E` and with every other entry unchanged; when `E` has no entry beforehand it
returns no error, issues no backend call and leaves the cache unchanged; hence
deleting the port returned by an allocation on an empty cache leaves the cache
empty. -/
theorem C6_delete_clears_entry (h : NAT) (w : World) (protocol : String) (E : Int) :
    (h.DeletePortMapping w protocol E).ports E = none ∧
    (∀ k, k ≠ E → (h.DeletePortMapping w protocol E).ports k = h.ports k) ∧
    (h.ports E = none →
      (h.DeletePortMapping w protocol E).ret = .returned none ∧
      (h.DeletePortMapping w protocol E).calls = [] ∧
      (h.DeletePortMapping w protocol E).ports = h.ports) ∧
    (∀ (wa : World) (pa : String) (Ea Ia : Int) (da : String) (ta : Int) (eo io : Int),
      h.ports = Ports.empty →
      (h.AddPortMapping wa pa Ea Ia da ta).ret = .returned (.ok (eo, io)) →
      ((h.setPorts (h.AddPortMapping wa pa Ea Ia da ta).ports).DeletePortMapping
        w protocol eo).ports = Ports.empty) := by
  refine ⟨?_, ?_, ?_, ?_⟩
  · rw [delete_ports]; simp [Ports.delete]
  · intro k hk
    rw [delete_ports]; simp [Ports.delete, hk]
  · intro hc
    refine ⟨(delete_absent h w protocol E hc).1, (delete_absent h w protocol E hc).2, ?_⟩
    rw [delete_ports]
    funext x
    simp only [Ports.delete]
    split
    · next hx => rw [hx, hc]
    · rfl
  · intro wa pa Ea Ia da ta eo io hempty hret
    rw [delete_ports, setPorts_ports]
    rcases add_step h wa pa Ea Ia da ta with ⟨io', hret', _, hcase⟩ | ⟨hno, _⟩
    · rw [hret'] at hret
      injection hret with hret
      injection hret with hret
      injection hret with h1 h2
      rcases hcase with ⟨_, _, hports⟩ | ⟨hc, _⟩
      · rw [hports, h1, hempty]
        funext x
        simp only [Ports.delete, Ports.set, Ports.empty]
        split <;> rfl
      · rw [hempty] at hc; cases hc
    · exact absurd hret (hno eo io)

/-- An instance of C6: deleting a port the cache does not hold. -/
theorem C6_delete_clears_entry_witness :
    (pmpEmpty.DeletePortMapping worldAccepting "tcp" 20000).ret = .returned none ∧
    (pmpEmpty.DeletePortMapping worldAccepting "tcp" 20000).calls = [] ∧
    (pmpEmpty.DeletePortMapping worldAccepting "tcp" 20000).ports = pmpEmpty.ports :=
  (C6_delete_clears_entry pmpEmpty worldAccepting "tcp" 20000).2.2.1 rfl

/-! ## C7: backend failure -/

theorem pmpAttempts_length (w : World) (protocol : String) (E I t : Int) (k m : Nat) :
    (pmpAttempts w protocol E I t k m).length = m := by
  simp [pmpAttempts]

/-- A NAT-PMP `AddPortMapping` reaches the client exactly when an external port
is resolved and the requested internal port does not conflict with the cache. -/
theorem natpmp_calls_ne_nil_iff (n : natpmpNAT) (w : World) (protocol : String) (E I : Int)
    (description : String) (t : Int) :
    (n.AddPortMapping w protocol E I description t).calls ≠ [] ↔
      ((pickExternalPort n.ports w.rand E).2.1 = false ∧
        ∀ I', n.ports (pickExternalPort n.ports w.rand E).1 = some I' → I = 0 ∨ I = I') := by
  rcases natpmp_add_anatomy n w protocol E I description t with
    ⟨hf, _, _, hcalls⟩ | ⟨_, I', hc, h0, hne, _, _, hcalls⟩ | ⟨hf, I', hc, hI, _, _, hcalls⟩ |
    ⟨hf, hc, j, _, _, _, _, _, hcalls⟩ | ⟨hf, hc, _, _, _, hcalls⟩
  · rw [hcalls, hf]; simp
  · rw [hcalls]
    constructor
    · intro hh; exact absurd rfl hh
    · rintro ⟨_, hall⟩
      rcases hall I' hc with h | h
      · exact absurd h h0
      · exact absurd h hne
  · rw [hcalls]
    constructor
    · intro _
      refine ⟨hf, ?_⟩
      intro I'' hc''
      rw [hc] at hc''; injection hc'' with hc''; subst hc''
      exact hI
    · intro _; simp
  · constructor
    · intro _
      exact ⟨hf, fun I' hc' => by rw [hc] at hc'; cases hc'⟩
    · intro _ hnil
      have := pmpAttempts_length w protocol (pickExternalPort n.ports w.rand E).1 I
        (Int.tdiv t second) (pickExternalPort n.ports w.rand E).2.2 (j + 1)
      rw [← hcalls, hnil] at this
      simp at this
  · constructor
    · intro _
      exact ⟨hf, fun I' hc' => by rw [hc] at hc'; cases hc'⟩
    · intro _ hnil
      have := pmpAttempts_length w protocol (pickExternalPort n.ports w.rand E).1 I
        (Int.tdiv t second) (pickExternalPort n.ports w.rand E).2.2 (if I = 0 then 3 else 1)
      rw [← hcalls, hnil] at this
      split at this <;> simp at this

/-- A handle reaches its wire client exactly when, in addition, a UPnP handle
has found its internal address and been given a protocol `mapProtocol` accepts. -/
theorem add_calls_ne_nil_iff (h : NAT) (w : World) (protocol : String) (E I : Int)
    (description : String) (t : Int) :
    (h.AddPortMapping w protocol E I description t).calls ≠ [] ↔
      (h.lookupFails w = false ∧ h.protocolPanics protocol = false ∧
        (pickExternalPort h.ports w.rand E).2.1 = false ∧
        ∀ I', h.ports (pickExternalPort h.ports w.rand E).1 = some I' → I = 0 ∨ I = I') := by
  rcases Bool.eq_false_or_eq_true (h.lookupFails w) with hl | hl
  · obtain ⟨e, _, hr⟩ := add_lookup_fails h w protocol E I description t hl
    rw [hr, hl]; simp
  · rcases Bool.eq_false_or_eq_true (h.protocolPanics protocol) with hp | hp
    · obtain ⟨_, hcalls, _⟩ := add_panics h w protocol E I description t hl hp
      rw [hcalls, hp]; simp
    · have hcore := natpmp_calls_ne_nil_iff h.core w protocol E I description t
      rw [core_ports] at hcore
      rw [add_sim h w protocol E I description t hl hp]
      simp only [ne_eq, List.map_eq_nil_iff]
      constructor
      · intro hh
        exact ⟨hl, hp, hcore.mp hh⟩
      · rintro ⟨_, _, hh⟩
        exact hcore.mpr hh

/-- A call that reaches the backend and in which every reply is an error: the
number of client calls by path, the error returned and the cache. -/
theorem add_all_rejected (h : NAT) (w : World) (protocol : String) (E I : Int)
    (description : String) (t : Int)
    (hrej : ∀ k, w.reply k ≠ none)
    (hcall : (h.AddPortMapping w protocol E I description t).calls ≠ []) :
    (h.ports (pickExternalPort h.ports w.rand E).1 ≠ none →
      (h.AddPortMapping w protocol E I description t).calls.length = 1) ∧
    (h.ports (pickExternalPort h.ports w.rand E).1 = none → I ≠ 0 →
      (h.AddPortMapping w protocol E I description t).calls.length = 1) ∧
    (h.ports (pickExternalPort h.ports w.rand E).1 = none → I = 0 →
      (h.AddPortMapping w protocol E I description t).calls.length = 3) ∧
    (∃ e, w.reply ((h.AddPortMapping w protocol E I description t).calls.length - 1) = some e ∧
      (h.AddPortMapping w protocol E I description t).ret = .returned (.error e)) ∧
    (h.AddPortMapping w protocol E I description t).ports = h.ports := by
  obtain ⟨hl, hp, hf, hok⟩ := (add_calls_ne_nil_iff h w protocol E I description t).mp hcall
  rw [add_sim h w protocol E I description t hl hp]
  simp only [List.length_map]
  have hcore := natpmp_add_anatomy h.core w protocol E I description t
  rw [core_ports] at hcore
  rcases hcore with ⟨hf', _⟩ | ⟨_, I', hc, h0, hne, _⟩ | ⟨_, I', hc, _, hret, hports, hcalls⟩ |
    ⟨_, _, j, _, _, hfree, _⟩ | ⟨_, hc, _, hret, hports, hcalls⟩
  · rw [hf] at hf'; cases hf'
  · rcases hok I' hc with hh | hh
    · exact absurd hh h0
    · exact absurd hh hne
  · obtain ⟨e, he, hgo⟩ := goReturn_some (pickExternalPort h.ports w.rand E).1 I' (w.reply 0)
      (hrej 0)
    rw [hgo] at hret
    rw [hcalls, hret, hports]
    refine ⟨fun _ => rfl, ?_, ?_, ⟨e, he, rfl⟩, rfl⟩
    · intro hn; rw [hc] at hn; cases hn
    · intro hn; rw [hc] at hn; cases hn
  · exact absurd hfree (hrej j)
  · obtain ⟨e, he, hgo⟩ := goReturn_some 0 0 (w.reply ((if I = 0 then 3 else 1) - 1))
      (hrej _)
    rw [hgo] at hret
    rw [hcalls, hret, hports, pmpAttempts_length]
    refine ⟨?_, ?_, ?_, ⟨e, he, rfl⟩, rfl⟩
    · intro hn; exact absurd hc hn
    · intro _ hI; simp [hI]
    · intro _ hI; simp [hI]

/-- The resolved external port of a call that resolves one: the given port when
it is not 0, a port without a cache entry when it is. -/
theorem pick_resolved (ports : Ports) (rand : Nat → Nat) (E : Int)
    (hres : E ≠ 0 ∨ ∃ j, j < 100 ∧ ports (randomPort (rand j)) = none) :
    (pickExternalPort ports rand E).2.1 = false ∧
    (E ≠ 0 → (pickExternalPort ports rand E).1 = E) ∧
    (E = 0 → ports (pickExternalPort ports rand E).1 = none) := by
  by_cases hE : E = 0
  · subst hE
    have hf : (pickExternalPort ports rand 0).2.1 = false := by
      rcases pick_zero ports rand with ⟨j, _, _, _, heq⟩ | ⟨hall, _⟩
      · rw [heq]
      · rcases hres with h0 | ⟨j, hj, hfree⟩
        · exact absurd rfl h0
        · exact absurd hfree (hall j hj)
    exact ⟨hf, fun h0 => absurd rfl h0, fun _ => pick_zero_free ports rand hf⟩
  · rw [pick_nonzero ports rand E hE]
    exact ⟨rfl, fun _ => rfl, fun h0 => absurd h0 hE⟩

/-- C7 (amended): for every `AddPortMapping` call in which an external port is
resolved (`externalPort != 0`, or one of the first 100 draws is not a key of the
cache), the requested internal port does not conflict with a cached one and, on
a UPnP handle, the internal-address lookup succeeds and the protocol is one
`mapProtocol` accepts: if the backend rejects every attempt, the call makes
exactly one backend call when the external port has a cache entry (renewal),
exactly one when it has none and `internalPort != 0`, and exactly three when it
has none and `internalPort = 0`; it returns the error of the last backend call
unchanged and the cache is the cache before the call. -/
theorem C7_backend_failure_propagated (h : NAT) (w : World) (protocol : String) (E I : Int)
    (description : String) (t : Int)
    (hrej : ∀ k, w.reply k ≠ none)
    (hl : h.lookupFails w = false) (hp : h.protocolPanics protocol = false)
    (hres : E ≠ 0 ∨ ∃ j, j < 100 ∧ h.ports (randomPort (w.rand j)) = none)
    (hok : ∀ I', E ≠ 0 → h.ports E = some I' → I = 0 ∨ I = I') :
    (E ≠ 0 → h.ports E ≠ none →
      (h.AddPortMapping w protocol E I description t).calls.length = 1) ∧
    ((E = 0 ∨ h.ports E = none) → I ≠ 0 →
      (h.AddPortMapping w protocol E I description t).calls.length = 1) ∧
    ((E = 0 ∨ h.ports E = none) → I = 0 →
      (h.AddPortMapping w protocol E I description t).calls.length = 3) ∧
    (∃ e, w.reply ((h.AddPortMapping w protocol E I description t).calls.length - 1) = some e ∧
      (h.AddPortMapping w protocol E I description t).ret = .returned (.error e)) ∧
    (h.AddPortMapping w protocol E I description t).ports = h.ports := by
  obtain ⟨hf, hnz, hz⟩ := pick_resolved h.ports w.rand E hres
  have hnew : (E = 0 ∨ h.ports E = none) →
      h.ports (pickExternalPort h.ports w.rand E).1 = none := by
    intro hcase
    by_cases hE : E = 0
    · exact hz hE
    · rcases hcase with h0 | hnone
      · exact absurd h0 hE
      · rw [hnz hE]; exact hnone
  have hcall : (h.AddPortMapping w protocol E I description t).calls ≠ [] := by
    refine (add_calls_ne_nil_iff h w protocol E I description t).mpr ⟨hl, hp, hf, ?_⟩
    intro I' hc
    by_cases hE : E = 0
    · rw [hz hE] at hc; cases hc
    · rw [hnz hE] at hc; exact hok I' hE hc
  obtain ⟨hone, hfixed, hrandom, hret, hports⟩ :=
    add_all_rejected h w protocol E I description t hrej hcall
  refine ⟨?_, ?_, ?_, hret, hports⟩
  · intro hE hentry
    exact hone (by rw [hnz hE]; exact hentry)
  · intro hcase hI
    exact hfixed (hnew hcase) hI
  · intro hcase hI
    exact hrandom (hnew hcase) hI

/-- An instance of C7 (amended): three rejected attempts for a new external port
with `internalPort = 0`. -/
theorem C7_backend_failure_propagated_witness :
    (pmpEmpty.AddPortMapping worldRejecting "tcp" 20000 0 "svc" 0).calls.length = 3 ∧
    (∃ e, worldRejecting.reply
        ((pmpEmpty.AddPortMapping worldRejecting "tcp" 20000 0 "svc" 0).calls.length - 1)
          = some e ∧
      (pmpEmpty.AddPortMapping worldRejecting "tcp" 20000 0 "svc" 0).ret
        = .returned (.error e)) ∧
    (pmpEmpty.AddPortMapping worldRejecting "tcp" 20000 0 "svc" 0).ports = pmpEmpty.ports :=
  ⟨(C7_backend_failure_propagated pmpEmpty worldRejecting "tcp" 20000 0 "svc" 0
      (fun k => by simp [worldRejecting]) rfl rfl (Or.inl (by decide))
      (fun I' _ hc => by cases hc)).2.2.1 (Or.inr rfl) rfl,
   (C7_backend_failure_propagated pmpEmpty worldRejecting "tcp" 20000 0 "svc" 0
      (fun k => by simp [worldRejecting]) rfl rfl (Or.inl (by decide))
      (fun I' _ hc => by cases hc)).2.2.2⟩

/-- C7 fails as stated: on a UPnP handle with an empty cache, on a host with no
interface, a backend that rejects every call is never asked:
`AddPortMapping("tcp", 20000, 8080, "svc", 0)` (new entry, `internalPort != 0`)
issues no backend call instead of exactly one and returns
`errNoInternalAddress`, which is not the error of a backend call. -/
theorem C7_counterexample :
    (∀ k, worldRejectingNoInterface.reply k ≠ none) ∧
    upnpEmpty.ports 20000 = none ∧ (8080 : Int) ≠ 0 ∧
    (upnpEmpty.AddPortMapping worldRejectingNoInterface "tcp" 20000 8080 "svc" 0).calls = [] ∧
    (upnpEmpty.AddPortMapping worldRejectingNoInterface "tcp" 20000 8080 "svc" 0).calls.length
      ≠ 1 ∧
    (upnpEmpty.AddPortMapping worldRejectingNoInterface "tcp" 20000 8080 "svc" 0).ret
      = .returned (.error Error.errNoInternalAddress) ∧
    ∀ k, worldRejectingNoInterface.reply k ≠ some Error.errNoInternalAddress := by
  refine ⟨fun k => by simp [worldRejectingNoInterface], rfl, by decide, rfl, by decide, rfl,
    fun k => by simp [worldRejectingNoInterface]⟩

/-! ## C8: the internal address -/

theorem scanAddrs_eq (gw : IP) (addrs : List Addr) :
    scanAddrs gw addrs = ((subnetsOf [addrs]).find? fun x => x.Contains gw).map IPNet.ip := by
  induction addrs with
  | nil => rfl
  | cons a rest ih =>
    simp only [subnetsOf, List.flatten_cons, List.flatten_nil, List.append_nil] at ih ⊢
    cases a with
    | ipNet x =>
      simp only [scanAddrs, List.filterMap_cons, List.find?_cons]
      cases hx : x.Contains gw
      · simp [ih]
      · simp
    | other =>
      simp only [scanAddrs, List.filterMap_cons]
      exact ih

theorem scanIfaces_eq (gw : IP) (ifaces : List (List Addr)) :
    scanIfaces gw (ifaces.map Except.ok)
      = match firstContaining ifaces gw with
        | some x => .ok x.ip
        | none => .error Error.errNoInternalAddress := by
  induction ifaces with
  | nil => rfl
  | cons addrs rest ih =>
    simp only [List.map_cons, scanIfaces, scanAddrs_eq]
    simp only [firstContaining, subnetsOf, List.flatten_cons, List.flatten_nil, List.append_nil,
      List.filterMap_append, List.find?_append] at ih ⊢
    cases hfind : List.find? (fun x => x.Contains gw)
        (List.filterMap (fun a => match a with
          | Addr.ipNet x => some x
          | Addr.other => none) addrs) with
    | some x => simp
    | none => simpa using ih

theorem getInternalAddress_eq (h : NAT) (w : World) (gw : IP)
    (hg : h.GetDeviceAddress w = .ok gw) : h.GetInternalAddress w = scanInterfaces w gw := by
  cases h with
  | natpmp n =>
    simp only [NAT.GetDeviceAddress, natpmpNAT.GetDeviceAddress] at hg
    injection hg with hg
    simp [NAT.GetInternalAddress, natpmpNAT.GetInternalAddress, hg]
  | upnp u =>
    simp only [NAT.GetDeviceAddress] at hg
    simp [NAT.GetInternalAddress, upnpNAT.GetInternalAddress, hg]

/-- C8: for every list of local interfaces with their addresses and every
gateway address, `GetInternalAddress` of either adapter returns the address of
the first interface address, in enumeration order, whose subnet contains the
gateway address, and fails with `errNoInternalAddress` exactly when no
interface subnet contains it; with the single interface address 10.0.0.5/24 and
gateway 10.0.0.1 the result is 10.0.0.5. -/
theorem C8_internal_address_is_first_match (h : NAT) (w : World) (ifaces : List (List Addr))
    (gw : IP) (hi : w.interfaces = .ok (ifaces.map Except.ok))
    (hg : h.GetDeviceAddress w = .ok gw) :
    (h.GetInternalAddress w
      = match firstContaining ifaces gw with
        | some x => .ok x.ip
        | none => .error Error.errNoInternalAddress) ∧
    (h.GetInternalAddress w = .error Error.errNoInternalAddress ↔
      ∀ x, x ∈ subnetsOf ifaces → x.Contains gw = false) ∧
    (ifaces = [[Addr.ipNet ⟨[10, 0, 0, 5], [255, 255, 255, 0]⟩]] → gw = [10, 0, 0, 1] →
      h.GetInternalAddress w = .ok [10, 0, 0, 5]) := by
  have hmain : h.GetInternalAddress w
      = match firstContaining ifaces gw with
        | some x => .ok x.ip
        | none => .error Error.errNoInternalAddress := by
    rw [getInternalAddress_eq h w gw hg]
    simp only [scanInterfaces, hi]
    exact scanIfaces_eq gw ifaces
  refine ⟨hmain, ?_, ?_⟩
  · rw [hmain]
    cases hfind : firstContaining ifaces gw with
    | some x =>
      simp only [firstContaining] at hfind
      constructor
      · intro hh; cases hh
      · intro hall
        have hmem := List.mem_of_find?_eq_some hfind
        have hcont := List.find?_some hfind
        rw [hall x hmem] at hcont
        cases hcont
    | none =>
      simp only [firstContaining, List.find?_eq_none] at hfind
      constructor
      · intro _ x hx
        simpa using hfind x hx
      · intro _; rfl
  · intro hifaces hgw
    rw [hmain, hifaces, hgw]
    rfl

/-- An instance of C8: interface address 10.0.0.5/24, gateway 10.0.0.1. -/
theorem C8_internal_address_is_first_match_witness :
    upnpEmpty.GetInternalAddress worldAccepting = .ok [10, 0, 0, 5] :=
  (C8_internal_address_is_first_match upnpEmpty worldAccepting
    [[Addr.ipNet ⟨[10, 0, 0, 5], [255, 255, 255, 0]⟩]] [10, 0, 0, 1] rfl rfl).2.2 rfl rfl

/-! ## C9: invalid protocol strings -/

theorem mapProtocol_invalid (protocol : String) (h1 : protocol ≠ "tcp") (h2 : protocol ≠ "udp") :
    mapProtocol protocol = .error ("invalid protocol: " ++ protocol) := by
  simp [mapProtocol, h1, h2]

/-- With an invalid protocol the UPnP adapter panics exactly when it gets as far
as a client call, and never reaches the client or changes the cache on
`AddPortMapping`. -/
theorem upnp_invalid_protocol (u : upnpNAT) (w : World)
    (protocol : String) (E I : Int) (description : String) (t : Int)
    (h1 : protocol ≠ "tcp") (h2 : protocol ≠ "udp") :
    ((u.AddPortMapping w protocol E I description t).ret
        = .panicked ("invalid protocol: " ++ protocol) ↔
      ((∃ ip, u.GetInternalAddress w = .ok ip) ∧
        (pickExternalPort u.ports w.rand E).2.1 = false ∧
        ∀ I', u.ports (pickExternalPort u.ports w.rand E).1 = some I' → I = 0 ∨ I = I')) ∧
    ((u.AddPortMapping w protocol E I description t).ret
        = .panicked ("invalid protocol: " ++ protocol) ∨
      ∃ e, (u.AddPortMapping w protocol E I description t).ret = .returned (.error e)) ∧
    (u.AddPortMapping w protocol E I description t).calls = [] ∧
    (u.AddPortMapping w protocol E I description t).ports = u.ports ∧
    ((u.DeletePortMapping w protocol E).ret = .panicked ("invalid protocol: " ++ protocol) ↔
      u.ports E ≠ none) ∧
    (u.ports E = none → (u.DeletePortMapping w protocol E).ret = .returned none) ∧
    (u.DeletePortMapping w protocol E).calls = [] := by
  have hm := mapProtocol_invalid protocol h1 h2
  have hdel : ((u.DeletePortMapping w protocol E).ret
        = .panicked ("invalid protocol: " ++ protocol) ↔ u.ports E ≠ none) ∧
      (u.ports E = none → (u.DeletePortMapping w protocol E).ret = .returned none) ∧
      (u.DeletePortMapping w protocol E).calls = [] := by
    cases hc : u.ports E with
    | some v => simp [upnpNAT.DeletePortMapping, hc, hm]
    | none => simp [upnpNAT.DeletePortMapping, hc]
  cases hg : u.GetInternalAddress w with
  | error e =>
    rw [upnp_add_lookup_error u w protocol E I description t e hg]
    refine ⟨?_, Or.inr ⟨e, rfl⟩, rfl, rfl, hdel⟩
    constructor
    · intro hh; cases hh
    · rintro ⟨⟨ip, hip⟩, _⟩; cases hip
  | ok ip =>
    have hiff := natpmp_calls_ne_nil_iff ⟨[], u.ports⟩ w protocol E I description t
    rcases upnp_add_panic u [] w protocol _ E I ip description t hg hm with
      ⟨hnil, hret, ⟨e, he⟩, hports, hcalls⟩ | ⟨hne, hret, hports, hcalls⟩
    · refine ⟨?_, Or.inr ⟨e, by rw [hret, he]⟩, hcalls, hports, hdel⟩
      constructor
      · intro hh; rw [hret, he] at hh; cases hh
      · rintro ⟨_, hcond⟩
        exact absurd hnil (hiff.mpr hcond)
    · refine ⟨?_, Or.inl hret, hcalls, hports, hdel⟩
      constructor
      · intro _
        exact ⟨⟨ip, rfl⟩, hiff.mp hne⟩
      · intro _; exact hret

/-- The returns of `(*upnpNAT).AddPortMapping` that precede every client call;
they do not depend on the protocol. -/
theorem upnp_add_early (u : upnpNAT) (w : World) (protocol : String) (E I : Int)
    (description : String) (t : Int) :
    (∀ e, u.GetInternalAddress w = .error e →
      (u.AddPortMapping w protocol E I description t).ret = .returned (.error e)) ∧
    ((∃ ip, u.GetInternalAddress w = .ok ip) →
      (pickExternalPort u.ports w.rand E).2.1 = true →
      (u.AddPortMapping w protocol E I description t).ret
        = .returned (.error Error.errNoAvailableExternalPort)) ∧
    ((∃ ip, u.GetInternalAddress w = .ok ip) →
      (pickExternalPort u.ports w.rand E).2.1 = false →
      ∀ I', u.ports (pickExternalPort u.ports w.rand E).1 = some I' → I ≠ 0 → I ≠ I' →
      (u.AddPortMapping w protocol E I description t).ret
        = .returned (.error Error.errExternalPortInUse)) := by
  refine ⟨?_, ?_, ?_⟩
  · intro e hg
    rw [upnp_add_lookup_error u w protocol E I description t e hg]
  · rintro ⟨ip, hg⟩ hf
    simp [upnpNAT.AddPortMapping, hg, hf]
  · rintro ⟨ip, hg⟩ hf I' hc h0 hne
    simp [upnpNAT.AddPortMapping, hg, hf, hc, h0, hne]

/-- C9 (amended): with a protocol string other than "tcp" and "udp" the UPnP
adapter panics exactly when it gets as far as a backend call.  `AddPortMapping`
panics exactly when the internal-address lookup succeeds, an external port is
resolved and the requested internal port does not conflict with the cache;
otherwise it returns what it returns for "tcp" and for "udp": the error of the
lookup when the lookup fails, `errNoAvailableExternalPort` when no external
port is resolved, `errExternalPortInUse` when the internal port conflicts; in
no case does it issue a backend call or change the cache.
`DeletePortMapping` panics exactly when the external port has a cache entry and
returns no error when it has none; in both cases it issues no backend call and
leaves the cache as the old cache with the entry for that port removed (the
entry is removed before the panic). -/
theorem C9_invalid_protocol_panics_at_backend_call (u : upnpNAT) (w : World)
    (protocol : String) (E I : Int) (description : String) (t : Int)
    (h1 : protocol ≠ "tcp") (h2 : protocol ≠ "udp") :
    ((u.AddPortMapping w protocol E I description t).ret
        = .panicked ("invalid protocol: " ++ protocol) ↔
      ((∃ ip, u.GetInternalAddress w = .ok ip) ∧
        (pickExternalPort u.ports w.rand E).2.1 = false ∧
        ∀ I', u.ports (pickExternalPort u.ports w.rand E).1 = some I' → I = 0 ∨ I = I')) ∧
    (∀ e, u.GetInternalAddress w = .error e →
      (u.AddPortMapping w protocol E I description t).ret = .returned (.error e)) ∧
    ((∃ ip, u.GetInternalAddress w = .ok ip) →
      (pickExternalPort u.ports w.rand E).2.1 = true →
      (u.AddPortMapping w protocol E I description t).ret
        = .returned (.error Error.errNoAvailableExternalPort)) ∧
    ((∃ ip, u.GetInternalAddress w = .ok ip) →
      (pickExternalPort u.ports w.rand E).2.1 = false →
      ∀ I', u.ports (pickExternalPort u.ports w.rand E).1 = some I' → I ≠ 0 → I ≠ I' →
      (u.AddPortMapping w protocol E I description t).ret
        = .returned (.error Error.errExternalPortInUse)) ∧
    ((u.AddPortMapping w protocol E I description t).ret
        ≠ .panicked ("invalid protocol: " ++ protocol) →
      (u.AddPortMapping w protocol E I description t).ret
        = (u.AddPortMapping w "tcp" E I description t).ret ∧
      (u.AddPortMapping w protocol E I description t).ret
        = (u.AddPortMapping w "udp" E I description t).ret) ∧
    (u.AddPortMapping w protocol E I description t).calls = [] ∧
    (u.AddPortMapping w protocol E I description t).ports = u.ports ∧
    ((u.DeletePortMapping w protocol E).ret = .panicked ("invalid protocol: " ++ protocol) ↔
      u.ports E ≠ none) ∧
    (u.ports E = none → (u.DeletePortMapping w protocol E).ret = .returned none) ∧
    (u.DeletePortMapping w protocol E).calls = [] ∧
    (u.DeletePortMapping w protocol E).ports = u.ports.delete E ∧
    (u.DeletePortMapping w protocol E).ports E = none := by
  obtain ⟨hiff, _, hcalls, hports, hdiff, hdnone, hdcalls⟩ :=
    upnp_invalid_protocol u w protocol E I description t h1 h2
  obtain ⟨hlook, hfull, hconf⟩ := upnp_add_early u w protocol E I description t
  have hdports : (u.DeletePortMapping w protocol E).ports = u.ports.delete E :=
    delete_ports (NAT.upnp u) w protocol E
  refine ⟨hiff, hlook, hfull, hconf, ?_, hcalls, hports, hdiff, hdnone, hdcalls, hdports, ?_⟩
  · intro hnp
    obtain ⟨tlook, tfull, tconf⟩ := upnp_add_early u w "tcp" E I description t
    obtain ⟨ulook, ufull, uconf⟩ := upnp_add_early u w "udp" E I description t
    cases hg : u.GetInternalAddress w with
    | error e => exact ⟨by rw [hlook e hg, tlook e hg], by rw [hlook e hg, ulook e hg]⟩
    | ok ip =>
      have hip : ∃ ip, u.GetInternalAddress w = .ok ip := ⟨ip, hg⟩
      rcases Bool.eq_false_or_eq_true (pickExternalPort u.ports w.rand E).2.1 with hf | hf
      · exact ⟨by rw [hfull hip hf, tfull hip hf], by rw [hfull hip hf, ufull hip hf]⟩
      · by_cases hc : ∀ I', u.ports (pickExternalPort u.ports w.rand E).1 = some I' →
            I = 0 ∨ I = I'
        · exact absurd (hiff.mpr ⟨hip, hf, hc⟩) hnp
        · simp only [not_forall] at hc
          obtain ⟨I', hI', hno⟩ := hc
          have h0 : I ≠ 0 := fun h => hno (Or.inl h)
          have hne : I ≠ I' := fun h => hno (Or.inr h)
          exact ⟨by rw [hconf hip hf I' hI' h0 hne, tconf hip hf I' hI' h0 hne],
            by rw [hconf hip hf I' hI' h0 hne, uconf hip hf I' hI' h0 hne]⟩
  · rw [hdports]; simp [Ports.delete]

/-- An instance of C9 (amended): the protocol "sctp" on a UPnP handle whose cache
maps 20000 to 80, asked for 20000 with the conflicting internal port 81. -/
theorem C9_invalid_protocol_panics_at_backend_call_witness :
    (upnpNAT.AddPortMapping ⟨Ports.empty.set 20000 80, "UPNP (IG1-IP1)", "10.0.0.1:5000"⟩
        worldAccepting "sctp" 20000 81 "svc" 0).ret
      = .returned (.error Error.errExternalPortInUse) ∧
    (upnpNAT.DeletePortMapping ⟨Ports.empty.set 20000 80, "UPNP (IG1-IP1)", "10.0.0.1:5000"⟩
        worldAccepting "sctp" 20000).ports 20000 = none :=
  ⟨(C9_invalid_protocol_panics_at_backend_call
      ⟨Ports.empty.set 20000 80, "UPNP (IG1-IP1)", "10.0.0.1:5000"⟩
      worldAccepting "sctp" 20000 81 "svc" 0 (by decide) (by decide)).2.2.2.1
        ⟨[10, 0, 0, 5], rfl⟩ rfl 80 rfl (by decide) (by decide),
   (C9_invalid_protocol_panics_at_backend_call
      ⟨Ports.empty.set 20000 80, "UPNP (IG1-IP1)", "10.0.0.1:5000"⟩
      worldAccepting "sctp" 20000 81 "svc" 0 (by decide) (by decide)).2.2.2.2.2.2.2.2.2.2.2⟩

/-- C9 fails as stated: with the protocol "sctp", `DeletePortMapping` on a UPnP
handle with an empty cache returns no error, and `AddPortMapping` for a cached
external port with a conflicting internal port returns `errExternalPortInUse`;
neither panics. -/
theorem C9_counterexample :
    "sctp" ≠ "tcp" ∧ "sctp" ≠ "udp" ∧
    (upnpEmpty.DeletePortMapping worldAccepting "sctp" 20000).ret = .returned none ∧
    (upnpBound.AddPortMapping worldAccepting "sctp" 20000 81 "svc" 0).ret
      = .returned (.error Error.errExternalPortInUse) :=
  ⟨by decide, by decide, rfl, rfl⟩

end GoNat
